import Mathlib

/-!
Verification of the linktree-analytics-backend core against its specification.

The development shallowly embeds the TypeScript source:
* `src/services/trackingService.ts` (ingest: `trackProfileView`, `trackLinkClick`,
  `updateSession`, `updateDailyStats`, `updateLinkStats`, `batchTrackViews`),
* `src/jobs/aggregation.ts` (the five roll-up passes),
* `src/services/analyticsService.ts` (query layer, time series, realtime path),
* `src/config/redis.ts` (cache service error behaviour),
* `src/services/suiService.ts` and `src/routes/tracking.ts` (chain probe and route).

Timestamps are epoch milliseconds as `Nat`.  Database tables are embedded as
lists (raw event tables, sessions) and as key-indexed partial maps (roll-up
tables).  External libraries (geoip, ua-parser, uuid, the WHATWG URL parser,
moment's date formatting) are modelled at their interface: enrichment results
and generated ids are passed in as data, and date formatting is implemented
for exactly the format strings the source selects.
-/

namespace Suitag

/-- JavaScript's `x || d` applied to an optional string: `null`, `undefined`
and the empty string are falsy and replaced by the default. -/
def jsOr (s : Option String) (d : String) : String :=
  match s with
  | none => d
  | some v => if v == "" then d else v

/-- Keep the first occurrence of every element (the order `DISTINCT` /
`groupBy` results are materialised in the embedding). -/
def distinctKeep {α : Type} [DecidableEq α] (l : List α) : List α :=
  l.foldl (fun acc a => if a ∈ acc then acc else acc ++ [a]) []

/-- Group a list by a key and count group sizes, keys in first-occurrence
order. -/
def groupCountBy {α κ : Type} [DecidableEq κ] (key : α → κ) (l : List α) : List (κ × Nat) :=
  (distinctKeep (l.map key)).map (fun k => (k, (l.map key).count k))

/-- The half-open range test `gte yesterday ∧ lt today` used by the
aggregation queries. -/
def inRangeB (y t ts : Nat) : Bool :=
  decide (y ≤ ts) && decide (ts < t)

/-- The inclusive range test `gte start ∧ lte end` used by the query layer. -/
def inSpanB (s e ts : Nat) : Bool :=
  decide (s ≤ ts) && decide (ts ≤ e)

/-- Overwrite one key of a key-indexed partial map. -/
def mapInsert {K V : Type} [DecidableEq K] (m : K → Option V) (k : K) (v : V) : K → Option V :=
  fun k' => if k' = k then some v else m k'

/-- Number of distinct non-null values, as computed by
`groupBy sessionId where sessionId not null` followed by `.length`. -/
def distinctNonNull (ids : List (Option String)) : Nat :=
  (distinctKeep (ids.filterMap id)).length

/-- Stable insertion used by the sorting helper. -/
def insertLeB {α : Type} (le : α → α → Bool) (a : α) : List α → List α
  | [] => [a]
  | b :: l => if le a b then a :: b :: l else b :: insertLeB le a l

/-- Stable insertion sort (the deterministic embedding of the `ORDER BY`
clauses in the source's queries). -/
def sortLeB {α : Type} (le : α → α → Bool) (l : List α) : List α :=
  l.foldr (insertLeB le) []

/-! ## Data model (`prisma/schema`): raw event rows, sessions, roll-up rows -/

/-- Enrichment result of `getGeoData` (geoip-lite lookup). -/
structure GeoData where
  country : Option String := none
  city : Option String := none
  region : Option String := none
deriving DecidableEq

/-- Enrichment result of `getDeviceData` (ua-parser-js). -/
structure DeviceData where
  deviceType : Option String := none
  browser : Option String := none
  os : Option String := none
deriving DecidableEq

/-- The `TrackingData` ingest payload. -/
structure TrackingData where
  profileId : String
  sessionId : Option String := none
  visitorIp : Option String := none
  userAgent : Option String := none
  referrer : Option String := none
  timestamp : Option Nat := none
deriving DecidableEq

/-- The `LinkClickData` ingest payload (`TrackingData` plus link fields). -/
structure LinkClickData extends TrackingData where
  linkIndex : Nat
  linkTitle : Option String := none
  linkUrl : Option String := none
deriving DecidableEq

/-- A `ProfileView` row. -/
structure ProfileView where
  id : Nat
  profileId : String
  sessionId : Option String
  visitorIp : Option String := none
  userAgent : Option String := none
  referrer : Option String := none
  country : Option String := none
  city : Option String := none
  region : Option String := none
  deviceType : Option String := none
  browser : Option String := none
  os : Option String := none
  timestamp : Nat
deriving DecidableEq

/-- A `LinkClick` row. -/
structure LinkClick where
  id : Nat
  profileId : String
  linkIndex : Nat
  linkTitle : Option String := none
  linkUrl : Option String := none
  sessionId : Option String
  visitorIp : Option String := none
  userAgent : Option String := none
  referrer : Option String := none
  country : Option String := none
  city : Option String := none
  region : Option String := none
  deviceType : Option String := none
  browser : Option String := none
  os : Option String := none
  timestamp : Nat
deriving DecidableEq

/-- A `Session` row. -/
structure SessionRow where
  sessionId : String
  profileId : String
  visitorIp : Option String := none
  userAgent : Option String := none
  country : Option String := none
  city : Option String := none
  region : Option String := none
  deviceType : Option String := none
  browser : Option String := none
  os : Option String := none
  startTime : Nat
  endTime : Option Nat := none
  duration : Option Nat := none
  pageViews : Nat
  linkClicks : Nat
deriving DecidableEq

/-- A `DailyStats` row (key `(profileId, date)` kept outside the row). -/
structure DailyStatsRow where
  views : Nat
  uniqueViews : Nat
  clicks : Nat
  uniqueClicks : Nat
  sessions : Nat
  avgDuration : Option ℚ := none
  bounceRate : Option ℚ := none
deriving DecidableEq

/-- A `LinkStats` row (key `(profileId, linkIndex, date)`). -/
structure LinkStatsRow where
  linkTitle : String
  linkUrl : String
  clicks : Nat
  uniqueClicks : Nat
  ctr : ℚ
deriving DecidableEq

/-- A `GeoStats` row (key `(profileId, country, city, date)`). -/
structure GeoStatsRow where
  city : Option String
  region : Option String
  views : Nat
  clicks : Nat
deriving DecidableEq

/-- A `DeviceStats` row (key `(profileId, deviceType, browser, os, date)`). -/
structure DeviceStatsRow where
  browser : Option String
  os : Option String
  views : Nat
  clicks : Nat
deriving DecidableEq

/-- A `ReferrerStats` row (key `(profileId, referrer, date)`). -/
structure ReferrerStatsRow where
  referrerType : String
  views : Nat
  clicks : Nat
deriving DecidableEq

/-- The store: raw event tables, the session table and the five roll-up
tables. -/
structure DB where
  profileViews : List ProfileView
  linkClicks : List LinkClick
  sessions : List SessionRow
  dailyStats : String × Nat → Option DailyStatsRow
  linkStats : String × Nat × Nat → Option LinkStatsRow
  geoStats : String × String × String × Nat → Option GeoStatsRow
  deviceStats : String × String × String × String × Nat → Option DeviceStatsRow
  referrerStats : String × String × Nat → Option ReferrerStatsRow

/-- The empty store. -/
def DB.empty : DB where
  profileViews := []
  linkClicks := []
  sessions := []
  dailyStats := fun _ => none
  linkStats := fun _ => none
  geoStats := fun _ => none
  deviceStats := fun _ => none
  referrerStats := fun _ => none

/-! ## Ingest (`TrackingService`) -/

/-- Midnight truncation of a timestamp (`setHours(0,0,0,0)`, UTC). -/
def startOfDay (t : Nat) : Nat :=
  t / 86400000 * 86400000

/-- The update branch of `TrackingService.updateSession`: set `endTime` and
`duration`, bump `pageViews` or `linkClicks`. -/
def updateSessionRow (ex : SessionRow) (now : Nat) (isClick : Bool) : SessionRow :=
  { ex with
    endTime := some now
    duration := some ((now - ex.startTime) / 1000)
    pageViews := if isClick then ex.pageViews else ex.pageViews + 1
    linkClicks := if isClick then ex.linkClicks + 1 else ex.linkClicks }

/-- The create branch of `TrackingService.updateSession`. -/
def newSessionRow (sid : String) (d : TrackingData) (geo : GeoData) (dev : DeviceData)
    (now : Nat) (isClick : Bool) : SessionRow :=
  { sessionId := sid
    profileId := d.profileId
    visitorIp := d.visitorIp
    userAgent := d.userAgent
    country := geo.country
    city := geo.city
    region := geo.region
    deviceType := dev.deviceType
    browser := dev.browser
    os := dev.os
    startTime := now
    endTime := none
    duration := none
    pageViews := if isClick then 0 else 1
    linkClicks := if isClick then 1 else 0 }

/-- `prisma.session.findUnique({ where: { sessionId } })`. -/
def findSession (l : List SessionRow) (sid : String) : Option SessionRow :=
  l.find? (fun r => r.sessionId == sid)

/-- `TrackingService.updateSession` on the session table. -/
def updateSessionList (l : List SessionRow) (sid : String) (d : TrackingData)
    (geo : GeoData) (dev : DeviceData) (now : Nat) (isClick : Bool) : List SessionRow :=
  match findSession l sid with
  | some _ => l.map (fun r => if r.sessionId == sid then updateSessionRow r now isClick else r)
  | none => l ++ [newSessionRow sid d geo dev now isClick]

/-- `TrackingService.updateSession` on the store. -/
def dbUpdateSession (db : DB) (sid : String) (d : TrackingData) (geo : GeoData)
    (dev : DeviceData) (now : Nat) (isClick : Bool) : DB :=
  { db with sessions := updateSessionList db.sessions sid d geo dev now isClick }

/-- `TrackingService.updateDailyStats`: increment today's view/click counter,
creating the row with zeroed aggregate fields when absent. -/
def updateDailyStats (db : DB) (pid : String) (isClick : Bool) (now : Nat) : DB :=
  let today := startOfDay now
  match db.dailyStats (pid, today) with
  | some ex =>
      let row : DailyStatsRow :=
        { ex with
          views := if isClick then ex.views else ex.views + 1
          clicks := if isClick then ex.clicks + 1 else ex.clicks }
      { db with dailyStats := mapInsert db.dailyStats (pid, today) row }
  | none =>
      let row : DailyStatsRow :=
        { views := if isClick then 0 else 1
          clicks := if isClick then 1 else 0
          uniqueViews := 0
          uniqueClicks := 0
          sessions := 0
          avgDuration := none
          bounceRate := none }
      { db with dailyStats := mapInsert db.dailyStats (pid, today) row }

/-- `TrackingService.updateLinkStats`: increment today's click counter for a
link, creating the row when absent. -/
def updateLinkStats (db : DB) (pid : String) (li : Nat) (title url : String) (now : Nat) : DB :=
  let today := startOfDay now
  match db.linkStats (pid, li, today) with
  | some ex =>
      let row : LinkStatsRow := { ex with clicks := ex.clicks + 1 }
      { db with linkStats := mapInsert db.linkStats (pid, li, today) row }
  | none =>
      let row : LinkStatsRow :=
        { linkTitle := title, linkUrl := url, clicks := 1, uniqueClicks := 0, ctr := 0 }
      { db with linkStats := mapInsert db.linkStats (pid, li, today) row }

/-- `TrackingService.trackProfileView`.  Enrichment results, the generated
session id and the new row id are passed in (they come from external
libraries in the source). -/
def trackProfileView (db : DB) (d : TrackingData) (geo : GeoData) (dev : DeviceData)
    (freshId : String) (now : Nat) (rowId : Nat) : DB :=
  let sid := d.sessionId.getD freshId
  let pv : ProfileView :=
    { id := rowId
      profileId := d.profileId
      sessionId := some sid
      visitorIp := d.visitorIp
      userAgent := d.userAgent
      referrer := d.referrer
      country := geo.country
      city := geo.city
      region := geo.region
      deviceType := dev.deviceType
      browser := dev.browser
      os := dev.os
      timestamp := d.timestamp.getD now }
  let db1 := { db with profileViews := db.profileViews ++ [pv] }
  let db2 := dbUpdateSession db1 sid d geo dev now false
  updateDailyStats db2 d.profileId false now

/-- `TrackingService.trackLinkClick`. -/
def trackLinkClick (db : DB) (d : LinkClickData) (geo : GeoData) (dev : DeviceData)
    (freshId : String) (now : Nat) (rowId : Nat) : DB :=
  let sid := d.sessionId.getD freshId
  let lc : LinkClick :=
    { id := rowId
      profileId := d.profileId
      linkIndex := d.linkIndex
      linkTitle := d.linkTitle
      linkUrl := d.linkUrl
      sessionId := some sid
      visitorIp := d.visitorIp
      userAgent := d.userAgent
      referrer := d.referrer
      country := geo.country
      city := geo.city
      region := geo.region
      deviceType := dev.deviceType
      browser := dev.browser
      os := dev.os
      timestamp := d.timestamp.getD now }
  let db1 := { db with linkClicks := db.linkClicks ++ [lc] }
  let db2 := dbUpdateSession db1 sid d.toTrackingData geo dev now true
  let db3 := updateDailyStats db2 d.profileId true now
  updateLinkStats db3 d.profileId d.linkIndex (jsOr d.linkTitle "") (jsOr d.linkUrl "") now

/-- One element of a `batchTrackViews` payload together with its enrichment
results and generated identifiers. -/
structure BatchItem where
  d : TrackingData
  geo : GeoData
  dev : DeviceData
  freshId : String
  rowId : Nat
deriving DecidableEq

/-- The `ProfileView` row `batchTrackViews` builds for one event. -/
def processBatchView (it : BatchItem) (now : Nat) : ProfileView :=
  { id := it.rowId
    profileId := it.d.profileId
    sessionId := some (it.d.sessionId.getD it.freshId)
    visitorIp := it.d.visitorIp
    userAgent := it.d.userAgent
    referrer := it.d.referrer
    country := it.geo.country
    city := it.geo.city
    region := it.geo.region
    deviceType := it.dev.deviceType
    browser := it.dev.browser
    os := it.dev.os
    timestamp := it.d.timestamp.getD now }

/-- `TrackingService.batchTrackViews`: a single `createMany` bulk insert of
the processed views; no other table is touched. -/
def batchTrackViews (db : DB) (views : List BatchItem) (now : Nat) : DB :=
  { db with profileViews := db.profileViews ++ views.map (fun it => processBatchView it now) }

/-- `TrackingService.endSession`. -/
def endSession (db : DB) (sid : String) (now : Nat) : DB :=
  match findSession db.sessions sid with
  | some s =>
      if s.endTime = none then
        { db with sessions := db.sessions.map (fun r =>
            if r.sessionId == sid then
              { r with endTime := some now, duration := some ((now - r.startTime) / 1000) }
            else r) }
      else db
  | none => db

/-! ## Ingest call sequences (for the session-counter property) -/

/-- One ingest call: a view or a click, with its payload, enrichment data and
generated identifiers. -/
structure TrackCall where
  isClick : Bool
  d : TrackingData
  linkIndex : Nat := 0
  linkTitle : Option String := none
  linkUrl : Option String := none
  geo : GeoData := {}
  dev : DeviceData := {}
  freshId : String := ""
  now : Nat := 0
  rowId : Nat := 0
deriving DecidableEq

/-- Execute one ingest call against the store. -/
def applyTrack (db : DB) (e : TrackCall) : DB :=
  if e.isClick then
    trackLinkClick db
      { toTrackingData := e.d, linkIndex := e.linkIndex,
        linkTitle := e.linkTitle, linkUrl := e.linkUrl }
      e.geo e.dev e.freshId e.now e.rowId
  else
    trackProfileView db e.d e.geo e.dev e.freshId e.now e.rowId

/-! ## Aggregator (`src/jobs/aggregation.ts`)

Each pass scans the raw tables over `[yesterday, today)` and issues one
upsert per key.  An upsert is embedded as `(key, createRow, updatePayload)`:
when the key is absent the `createRow` is inserted, otherwise the update
payload overwrites the fields listed in the source's `update:` block. -/

/-- Apply one upsert to a key-indexed table. -/
def applyOp {K R P : Type} [DecidableEq K] (upd : R → P → R) (m : K → Option R)
    (op : K × R × P) : K → Option R :=
  fun k =>
    if k = op.1 then
      some (match m op.1 with
            | some r => upd r op.2.2
            | none => op.2.1)
    else m k

/-- Apply a list of upserts in order. -/
def applyOps {K R P : Type} [DecidableEq K] (upd : R → P → R) (ops : List (K × R × P))
    (m : K → Option R) : K → Option R :=
  ops.foldl (applyOp upd) m

/-- The `ProfileView` rows of the processed day. -/
def yesterdayViews (y t : Nat) (db : DB) : List ProfileView :=
  db.profileViews.filter (fun v => inRangeB y t v.timestamp)

/-- The `LinkClick` rows of the processed day. -/
def yesterdayClicks (y t : Nat) (db : DB) : List LinkClick :=
  db.linkClicks.filter (fun c => inRangeB y t c.timestamp)

/-- The per-profile `DailyStats` row computed by `aggregateDailyStats`. -/
def dailyRowFor (y t : Nat) (db : DB) (pid : String) : DailyStatsRow :=
  let pviews := db.profileViews.filter (fun v => v.profileId == pid && inRangeB y t v.timestamp)
  let pclicks := db.linkClicks.filter (fun c => c.profileId == pid && inRangeB y t c.timestamp)
  let psessions := db.sessions.filter (fun s => s.profileId == pid && inRangeB y t s.startTime)
  let totalSessions := psessions.length
  let durs := psessions.filterMap (fun s => s.duration)
  let singlePage := (psessions.filter (fun s => s.pageViews == 1)).length
  { views := pviews.length
    uniqueViews := distinctNonNull (pviews.map (fun v => v.sessionId))
    clicks := pclicks.length
    uniqueClicks := distinctNonNull (pclicks.map (fun c => c.sessionId))
    sessions := totalSessions
    avgDuration :=
      if durs.length = 0 then none
      else some (((durs.map (fun n => (n : ℚ))).sum) / (durs.length : ℚ))
    bounceRate :=
      some (if totalSessions > 0 then (singlePage : ℚ) / (totalSessions : ℚ) * 100 else 0) }

/-- `aggregateDailyStats`: one full-replace upsert per profile with at least
one view in the processed day. -/
def aggregateDailyStats (y t : Nat) (db : DB) :
    List ((String × Nat) × DailyStatsRow × DailyStatsRow) :=
  let activeProfiles := distinctKeep ((yesterdayViews y t db).map (fun v => v.profileId))
  activeProfiles.map (fun pid =>
    let row := dailyRowFor y t db pid
    ((pid, y), row, row))

/-- `aggregateLinkStats`: clicks grouped by
`(profileId, linkIndex, linkTitle, linkUrl)`, upserted under
`(profileId, linkIndex, date)`. -/
def aggregateLinkStats (y t : Nat) (db : DB) :
    List ((String × Nat × Nat) × LinkStatsRow × LinkStatsRow) :=
  let groups := groupCountBy
    (fun c => (c.profileId, c.linkIndex, c.linkTitle, c.linkUrl)) (yesterdayClicks y t db)
  groups.map (fun g =>
    match g with
    | ((pid, li, title, url), cnt) =>
      let uniq := distinctNonNull
        ((db.linkClicks.filter (fun c =>
            c.profileId == pid && c.linkIndex == li && inRangeB y t c.timestamp)).map
          (fun c => c.sessionId))
      let totalViews :=
        (db.profileViews.filter (fun v => v.profileId == pid && inRangeB y t v.timestamp)).length
      let row : LinkStatsRow :=
        { linkTitle := jsOr title "Untitled"
          linkUrl := jsOr url ""
          clicks := cnt
          uniqueClicks := uniq
          ctr := if totalViews > 0 then (cnt : ℚ) / (totalViews : ℚ) * 100 else 0 }
      ((pid, li, y), row, row))

/-- A JavaScript `Map` keyed by strings: later `set`s win. -/
def jsMapOfList (pairs : List (String × Nat)) : String → Option Nat :=
  pairs.foldl (fun m p => fun k => if k == p.1 then some p.2 else m k) (fun _ => none)

/-- The template-string key `pid-country-city-region` used by the geo clicks
map (JS falsy fields render as the empty string). -/
def geoKeyStr (pid : String) (country city region : Option String) : String :=
  pid ++ "-" ++ country.getD "" ++ "-" ++ jsOr city "" ++ "-" ++ jsOr region ""

/-- The geo update payload overwrites only `views` and `clicks`. -/
def updGeo (r : GeoStatsRow) (p : Nat × Nat) : GeoStatsRow :=
  { r with views := p.1, clicks := p.2 }

/-- `aggregateGeoStats`: view groups by `(profileId, country, city, region)`
with non-null country, click counts joined through a string-keyed map, upsert
keyed by `(profileId, country, city || '', date)` (region is not in the
key). -/
def aggregateGeoStats (y t : Nat) (db : DB) :
    List ((String × String × String × Nat) × GeoStatsRow × (Nat × Nat)) :=
  let geoViews := groupCountBy (fun v => (v.profileId, v.country, v.city, v.region))
    ((yesterdayViews y t db).filter (fun v => v.country.isSome))
  let geoClicks := groupCountBy (fun c => (c.profileId, c.country, c.city, c.region))
    ((yesterdayClicks y t db).filter (fun c => c.country.isSome))
  let clicksMap := jsMapOfList (geoClicks.map (fun g =>
    match g with
    | ((pid, country, city, region), cnt) => (geoKeyStr pid country city region, cnt)))
  geoViews.map (fun g =>
    match g with
    | ((pid, country, city, region), cnt) =>
      let clicks := (clicksMap (geoKeyStr pid country city region)).getD 0
      let row : GeoStatsRow := { city := city, region := region, views := cnt, clicks := clicks }
      ((pid, country.getD "", jsOr city "", y), row, (cnt, clicks)))

/-- The template-string key `pid-deviceType-browser-os` of the device clicks
map. -/
def deviceKeyStr (pid : String) (deviceType browser os : Option String) : String :=
  pid ++ "-" ++ deviceType.getD "" ++ "-" ++ jsOr browser "" ++ "-" ++ jsOr os ""

/-- The device update payload overwrites only `views` and `clicks`. -/
def updDevice (r : DeviceStatsRow) (p : Nat × Nat) : DeviceStatsRow :=
  { r with views := p.1, clicks := p.2 }

/-- `aggregateDeviceStats`: same pattern as geo, keyed by
`(profileId, deviceType, browser || '', os || '', date)`. -/
def aggregateDeviceStats (y t : Nat) (db : DB) :
    List ((String × String × String × String × Nat) × DeviceStatsRow × (Nat × Nat)) :=
  let deviceViews := groupCountBy (fun v => (v.profileId, v.deviceType, v.browser, v.os))
    ((yesterdayViews y t db).filter (fun v => v.deviceType.isSome))
  let deviceClicks := groupCountBy (fun c => (c.profileId, c.deviceType, c.browser, c.os))
    ((yesterdayClicks y t db).filter (fun c => c.deviceType.isSome))
  let clicksMap := jsMapOfList (deviceClicks.map (fun g =>
    match g with
    | ((pid, dt, br, os), cnt) => (deviceKeyStr pid dt br os, cnt)))
  deviceViews.map (fun g =>
    match g with
    | ((pid, dt, br, os), cnt) =>
      let clicks := (clicksMap (deviceKeyStr pid dt br os)).getD 0
      let row : DeviceStatsRow := { browser := br, os := os, views := cnt, clicks := clicks }
      ((pid, dt.getD "", jsOr br "", jsOr os "", y), row, (cnt, clicks)))

/-- Lower-case all characters of a string (`String.prototype.toLowerCase` for
the ASCII referrers at hand). -/
def lowerStr (s : String) : String :=
  String.mk (s.data.map Char.toLower)

/-- Substring containment on character lists. -/
def startsWithChars : List Char → List Char → Bool
  | _, [] => true
  | [], _ :: _ => false
  | a :: s, b :: p => a == b && startsWithChars s p

/-- `String.prototype.includes`. -/
def containsSub : List Char → List Char → Bool
  | [], p => startsWithChars [] p
  | a :: s, p => startsWithChars (a :: s) p || containsSub s p

/-- `a.includes(b)` for strings. -/
def strIncludes (a b : String) : Bool :=
  containsSub a.data b.data

/-- The referrer classification of `aggregateReferrerStats`, applied to the
lower-cased referrer. -/
def classifyReferrer (raw : String) : String :=
  let referrer := lowerStr raw
  if strIncludes referrer "google" || strIncludes referrer "bing" ||
     strIncludes referrer "yahoo" then "search"
  else if strIncludes referrer "facebook" || strIncludes referrer "twitter" ||
          strIncludes referrer "instagram" || strIncludes referrer "linkedin" then "social"
  else if referrer == "" || referrer == "direct" then "direct"
  else "other"

/-- `aggregateReferrerStats`: view groups by `(profileId, referrer)` with
non-null referrer, click counts joined through a `pid-referrer` keyed map;
the stored `referrer` is the unmodified original string. -/
def aggregateReferrerStats (y t : Nat) (db : DB) :
    List ((String × String × Nat) × ReferrerStatsRow × ReferrerStatsRow) :=
  let referrerViews := groupCountBy (fun v => (v.profileId, v.referrer))
    ((yesterdayViews y t db).filter (fun v => v.referrer.isSome))
  let referrerClicks := groupCountBy (fun c => (c.profileId, c.referrer))
    ((yesterdayClicks y t db).filter (fun c => c.referrer.isSome))
  let clicksMap := jsMapOfList (referrerClicks.map (fun g =>
    match g with
    | ((pid, ref), cnt) => (pid ++ "-" ++ ref.getD "", cnt)))
  referrerViews.map (fun g =>
    match g with
    | ((pid, ref), cnt) =>
      let refStr := ref.getD ""
      let clicks := (clicksMap (pid ++ "-" ++ refStr)).getD 0
      let row : ReferrerStatsRow :=
        { referrerType := classifyReferrer refStr, views := cnt, clicks := clicks }
      ((pid, refStr, y), row, row))

/-- `runAllAggregations`: the five passes, each reading only the raw tables
and upserting its own roll-up table. -/
def runAllAggregations (y t : Nat) (db : DB) : DB :=
  { db with
    dailyStats := applyOps (fun _ p => p) (aggregateDailyStats y t db) db.dailyStats
    linkStats := applyOps (fun _ p => p) (aggregateLinkStats y t db) db.linkStats
    geoStats := applyOps updGeo (aggregateGeoStats y t db) db.geoStats
    deviceStats := applyOps updDevice (aggregateDeviceStats y t db) db.deviceStats
    referrerStats := applyOps (fun _ p => p) (aggregateReferrerStats y t db) db.referrerStats }

/-! ## Calendar arithmetic

The query layer truncates timestamps with Postgres `DATE_TRUNC` and renders
buckets with moment format strings.  Both are external to the TypeScript
source; they are embedded by standard civil-calendar arithmetic on epoch
days, implementing exactly the four format strings `getDateFormat`
selects. -/

/-- Civil date `(year, month, day)` of an epoch day (days since 1970-01-01,
proleptic Gregorian). -/
def civilFromDays (z : Nat) : Nat × Nat × Nat :=
  let zz := z + 719468
  let era := zz / 146097
  let doe := zz % 146097
  let yoe := (doe - doe / 1460 + doe / 36524 - doe / 146096) / 365
  let y := yoe + era * 400
  let doy := doe - (365 * yoe + yoe / 4 - yoe / 100)
  let mp := (5 * doy + 2) / 153
  let d := doy - (153 * mp + 2) / 5 + 1
  let m := if mp < 10 then mp + 3 else mp - 9
  (if m ≤ 2 then y + 1 else y, m, d)

/-- Epoch day of a civil date. -/
def daysFromCivil (y m d : Nat) : Nat :=
  let yy := if m ≤ 2 then y - 1 else y
  let era := yy / 400
  let yoe := yy % 400
  let mp := if m > 2 then m - 3 else m + 9
  let doy := (153 * mp + 2) / 5 + d - 1
  let doe := yoe * 365 + yoe / 4 - yoe / 100 + doy
  era * 146097 + doe - 719468

/-- Whether an ISO week-numbering year has 53 weeks. -/
def isoLongYear (y : Nat) : Bool :=
  let p := fun (x : Nat) => (x + x / 4 - x / 100 + x / 400) % 7
  p y == 4 || p (y - 1) == 3

/-- Number of ISO weeks in a year. -/
def isoWeeksInYear (y : Nat) : Nat :=
  if isoLongYear y then 53 else 52

/-- ISO week number of an epoch day (moment's `W` token). -/
def isoWeekOfDay (days : Nat) : Nat :=
  let c := civilFromDays days
  let y := c.1
  let ord := days - daysFromCivil y 1 1 + 1
  let wd := (days + 3) % 7 + 1
  let w := (10 + ord - wd) / 7
  if w = 0 then isoWeeksInYear (y - 1)
  else if w > isoWeeksInYear y then 1
  else w

/-- Zero-pad a number to two digits. -/
def pad2 (n : Nat) : String :=
  if n < 10 then "0" ++ toString n else toString n

/-- `AnalyticsService.getDateFormat`. -/
def getDateFormat (period : String) : String :=
  if period == "hour" then "YYYY-MM-DD HH:00"
  else if period == "day" then "YYYY-MM-DD"
  else if period == "week" then "YYYY-[W]WW"
  else if period == "month" then "YYYY-MM"
  else "YYYY-MM-DD"

/-- moment's rendering of a timestamp (epoch ms) for the format strings
returned by `getDateFormat`. -/
def formatDate (fmt : String) (t : Nat) : String :=
  let days := t / 86400000
  let c := civilFromDays days
  let hh := t % 86400000 / 3600000
  if fmt == "YYYY-MM-DD HH:00" then
    toString c.1 ++ "-" ++ pad2 c.2.1 ++ "-" ++ pad2 c.2.2 ++ " " ++ pad2 hh ++ ":00"
  else if fmt == "YYYY-[W]WW" then
    toString c.1 ++ "-W" ++ pad2 (isoWeekOfDay days)
  else if fmt == "YYYY-MM" then
    toString c.1 ++ "-" ++ pad2 c.2.1
  else
    toString c.1 ++ "-" ++ pad2 c.2.1 ++ "-" ++ pad2 c.2.2

/-- Postgres `DATE_TRUNC(period, timestamp)` on epoch ms (weeks start on
Monday). -/
def dateTrunc (period : String) (t : Nat) : Nat :=
  if period == "hour" then t / 3600000 * 3600000
  else if period == "week" then
    let days := t / 86400000
    (days - (days + 3) % 7) * 86400000
  else if period == "month" then
    let c := civilFromDays (t / 86400000)
    daysFromCivil c.1 c.2.1 1 * 86400000
  else t / 86400000 * 86400000

/-! ## Query layer (`AnalyticsService`) -/

/-- One merged time-series bucket as held in the JS `Map`. -/
structure TSEntry where
  views : Nat
  clicks : Nat
deriving DecidableEq

/-- One element of the `timeSeriesData` response array. -/
structure TSPoint where
  date : String
  views : Nat
  clicks : Nat
deriving DecidableEq

/-- `Map.prototype.get` on an insertion-ordered association list. -/
def mapGet (m : List (String × TSEntry)) (k : String) : Option TSEntry :=
  (m.find? (fun p => p.1 == k)).map (fun p => p.2)

/-- `Map.prototype.set`: update in place when present, append otherwise. -/
def mapSet (m : List (String × TSEntry)) (k : String) (v : TSEntry) :
    List (String × TSEntry) :=
  if m.any (fun p => p.1 == k) then
    m.map (fun p => if p.1 == k then (k, v) else p)
  else m ++ [(k, v)]

/-- The `GROUP BY` / `ORDER BY date` SQL of `getTimeSeriesData`: distinct
values ascending, with their multiplicities. -/
def sqlGroupCount (ts : List Nat) : List (Nat × Nat) :=
  (sortLeB (fun a b => decide (a ≤ b)) (distinctKeep ts)).map (fun b => (b, ts.count b))

/-- The merge loop of `AnalyticsService.getTimeSeriesData`, applied to the
timestamps of the matching view and click rows. -/
def buildTimeSeries (period : String) (viewTs clickTs : List Nat) : List TSPoint :=
  let fmt := getDateFormat period
  let viewData := sqlGroupCount (viewTs.map (dateTrunc period))
  let clickData := sqlGroupCount (clickTs.map (dateTrunc period))
  let m1 := viewData.foldl (fun m p =>
    mapSet m (formatDate fmt p.1) { views := p.2, clicks := 0 }) []
  let m2 := clickData.foldl (fun m p =>
    let k := formatDate fmt p.1
    let existing := (mapGet m k).getD { views := 0, clicks := 0 }
    mapSet m k { views := existing.views, clicks := p.2 }) m1
  m2.map (fun p => { date := p.1, views := p.2.views, clicks := p.2.clicks })

/-- The query layer's time range (`start`/`end` epoch ms and the requested
granularity; the reserved word `end` is rendered `endT`). -/
structure TimeRange where
  start : Nat
  endT : Nat
  period : String
deriving DecidableEq

/-- Timestamp column of the in-range view rows of a profile (the rows the
time-series view query scans). -/
def viewTimestamps (db : DB) (pid : String) (tr : TimeRange) : List Nat :=
  (db.profileViews.filter (fun v =>
    v.profileId == pid && inSpanB tr.start tr.endT v.timestamp)).map (fun v => v.timestamp)

/-- Timestamp column of the in-range click rows of a profile. -/
def clickTimestamps (db : DB) (pid : String) (tr : TimeRange) : List Nat :=
  (db.linkClicks.filter (fun c =>
    c.profileId == pid && inSpanB tr.start tr.endT c.timestamp)).map (fun c => c.timestamp)

/-- `AnalyticsService.getTimeSeriesData`. -/
def getTimeSeriesData (db : DB) (pid : String) (tr : TimeRange) : List TSPoint :=
  buildTimeSeries tr.period (viewTimestamps db pid tr) (clickTimestamps db pid tr)

/-- `AnalyticsService.getViewStats`. -/
def getViewStats (db : DB) (pid : String) (tr : TimeRange) : Nat × Nat :=
  let rows := db.profileViews.filter (fun v =>
    v.profileId == pid && inSpanB tr.start tr.endT v.timestamp)
  (rows.length, distinctNonNull (rows.map (fun v => v.sessionId)))

/-- `AnalyticsService.getClickStats`. -/
def getClickStats (db : DB) (pid : String) (tr : TimeRange) : Nat × Nat :=
  let rows := db.linkClicks.filter (fun c =>
    c.profileId == pid && inSpanB tr.start tr.endT c.timestamp)
  (rows.length, distinctNonNull (rows.map (fun c => c.sessionId)))

/-- One element of `geographicData`. -/
structure GeoEntry where
  country : String
  views : Nat
  clicks : Nat
deriving DecidableEq

/-- `AnalyticsService.getGeographicData`: top 10 countries by views, click
counts joined by country. -/
def getGeographicData (db : DB) (pid : String) (tr : TimeRange) : List GeoEntry :=
  let viewData := (sortLeB (fun a b => decide (b.2 ≤ a.2))
    (groupCountBy (fun v => v.country)
      ((db.profileViews.filter (fun v =>
          v.profileId == pid && inSpanB tr.start tr.endT v.timestamp)).filter
        (fun v => v.country.isSome)))).take 10
  let clickData := groupCountBy (fun c => c.country)
    ((db.linkClicks.filter (fun c =>
        c.profileId == pid && inSpanB tr.start tr.endT c.timestamp)).filter
      (fun c => c.country.isSome))
  let clickMap := jsMapOfList (clickData.map (fun g => (g.1.getD "", g.2)))
  viewData.map (fun g =>
    { country := g.1.getD "", views := g.2, clicks := (clickMap (g.1.getD "")).getD 0 })

/-- One element of `deviceData`. -/
structure DeviceEntry where
  deviceType : String
  views : Nat
  clicks : Nat
deriving DecidableEq

/-- `AnalyticsService.getDeviceData`. -/
def getDeviceData (db : DB) (pid : String) (tr : TimeRange) : List DeviceEntry :=
  let viewData := groupCountBy (fun v => v.deviceType)
    ((db.profileViews.filter (fun v =>
        v.profileId == pid && inSpanB tr.start tr.endT v.timestamp)).filter
      (fun v => v.deviceType.isSome))
  let clickData := groupCountBy (fun c => c.deviceType)
    ((db.linkClicks.filter (fun c =>
        c.profileId == pid && inSpanB tr.start tr.endT c.timestamp)).filter
      (fun c => c.deviceType.isSome))
  let clickMap := jsMapOfList (clickData.map (fun g => (g.1.getD "", g.2)))
  viewData.map (fun g =>
    { deviceType := g.1.getD "", views := g.2, clicks := (clickMap (g.1.getD "")).getD 0 })

/-- Suffix after the first `://` marker, if any. -/
def afterSchemeMarker : List Char → Option (List Char)
  | ':' :: '/' :: '/' :: rest => some rest
  | _ :: rest => afterSchemeMarker rest
  | [] => none

/-- Hostname of a parseable absolute URL.  This embeds the behaviour of the
external WHATWG `URL` constructor on the `scheme://host...` referrers the
service handles: the host runs to the first `/`, `?`, `#` or `:`; strings
without a scheme marker make the constructor throw (`none` here). -/
def urlHostname (s : String) : Option String :=
  (afterSchemeMarker s.data).map (fun rest =>
    String.mk (rest.takeWhile (fun c => !(c == '/' || c == '?' || c == '#' || c == ':'))))

/-- `AnalyticsService.cleanReferrer`: hostname when parseable, the original
string otherwise. -/
def cleanReferrer (r : String) : String :=
  match urlHostname r with
  | some h => h
  | none => r

/-- One element of `referrerData`. -/
structure ReferrerEntry where
  referrer : String
  views : Nat
  clicks : Nat
deriving DecidableEq

/-- `AnalyticsService.getReferrerData`: top 10 referrers by views, reported
through `cleanReferrer`, click counts joined by the original referrer. -/
def getReferrerData (db : DB) (pid : String) (tr : TimeRange) : List ReferrerEntry :=
  let viewData := (sortLeB (fun a b => decide (b.2 ≤ a.2))
    (groupCountBy (fun v => v.referrer)
      ((db.profileViews.filter (fun v =>
          v.profileId == pid && inSpanB tr.start tr.endT v.timestamp)).filter
        (fun v => v.referrer.isSome)))).take 10
  let clickData := groupCountBy (fun c => c.referrer)
    ((db.linkClicks.filter (fun c =>
        c.profileId == pid && inSpanB tr.start tr.endT c.timestamp)).filter
      (fun c => c.referrer.isSome))
  let clickMap := jsMapOfList (clickData.map (fun g => (g.1.getD "", g.2)))
  viewData.map (fun g =>
    { referrer := cleanReferrer (g.1.getD "")
      views := g.2
      clicks := (clickMap (g.1.getD "")).getD 0 })

/-- One element of `linkPerformance`. -/
structure LinkPerf where
  title : String
  url : String
  clicks : Nat
  uniqueClicks : Nat
  ctr : ℚ
deriving DecidableEq

/-- `AnalyticsService.getLinkPerformance`. -/
def getLinkPerformance (db : DB) (pid : String) (tr : TimeRange) : List LinkPerf :=
  let linkData := sortLeB (fun a b => decide (b.2 ≤ a.2))
    (groupCountBy (fun c => (c.linkIndex, c.linkTitle, c.linkUrl))
      (db.linkClicks.filter (fun c =>
        c.profileId == pid && inSpanB tr.start tr.endT c.timestamp)))
  let totalViews := (db.profileViews.filter (fun v =>
    v.profileId == pid && inSpanB tr.start tr.endT v.timestamp)).length
  linkData.map (fun g =>
    match g with
    | ((li, title, url), cnt) =>
      let uniq := distinctNonNull
        ((db.linkClicks.filter (fun c =>
            c.profileId == pid && c.linkIndex == li &&
            inSpanB tr.start tr.endT c.timestamp)).map (fun c => c.sessionId))
      { title := jsOr title "Untitled"
        url := jsOr url ""
        clicks := cnt
        uniqueClicks := uniq
        ctr := if totalViews > 0 then (cnt : ℚ) / (totalViews : ℚ) * 100 else 0 })

/-- The `AnalyticsData` report. -/
structure AnalyticsData where
  profileViews : Nat
  uniqueViews : Nat
  totalClicks : Nat
  uniqueClicks : Nat
  totalLinks : Nat
  averageClicksPerLink : ℚ
  topLink : Option (String × String × Nat)
  timeSeriesData : List TSPoint
  geographicData : List GeoEntry
  deviceData : List DeviceEntry
  referrerData : List ReferrerEntry
  linkPerformance : List LinkPerf
deriving DecidableEq

/-- The report assembly of `getProfileAnalytics` after a cache miss (the
`Promise.all` of the seven sub-queries plus the derived totals). -/
def computeAnalyticsData (db : DB) (pid : String) (tr : TimeRange) : AnalyticsData :=
  let viewStats := getViewStats db pid tr
  let clickStats := getClickStats db pid tr
  let linkPerformance := getLinkPerformance db pid tr
  let totalClicks := clickStats.1
  let totalLinks := linkPerformance.length
  let topLink :=
    match linkPerformance with
    | [] => none
    | h :: rest =>
        let best := rest.foldl (fun mx l => if l.clicks > mx.clicks then l else mx) h
        some (best.title, best.url, best.clicks)
  { profileViews := viewStats.1
    uniqueViews := viewStats.2
    totalClicks := totalClicks
    uniqueClicks := clickStats.2
    totalLinks := totalLinks
    averageClicksPerLink :=
      if totalLinks > 0 then (totalClicks : ℚ) / (totalLinks : ℚ) else 0
    topLink := topLink
    timeSeriesData := getTimeSeriesData db pid tr
    geographicData := getGeographicData db pid tr
    deviceData := getDeviceData db pid tr
    referrerData := getReferrerData db pid tr
    linkPerformance := linkPerformance }

/-! ## Cache (`src/config/redis.ts`) and the cached query path -/

/-- The cache with its failure modes: `getFails` (a read op raises inside the
client) and `setFails` (a write op raises). -/
structure CacheState where
  entries : String → Option AnalyticsData
  getFails : Bool
  setFails : Bool

/-- `CacheService.get`: the catch block swallows the error and returns
`null`, so a failing read is a miss. -/
def cacheServiceGet (c : CacheState) (k : String) : Option AnalyticsData :=
  if c.getFails then none else c.entries k

/-- Store a payload under a key (the effect of a successful `setex`). -/
def cacheInsert (c : CacheState) (k : String) (v : AnalyticsData) : CacheState :=
  { c with entries := fun k2 => if k2 == k then some v else c.entries k2 }

/-- `CacheService.set`: the catch block logs and rethrows, so a failing
write propagates to the caller. -/
def cacheServiceSet (c : CacheState) (k : String) (v : AnalyticsData) :
    Except Unit CacheState :=
  if c.setFails then .error ()
  else .ok (cacheInsert c k v)

/-- The cache key of `getProfileAnalytics`:
`analytics:profileId:startMs:endMs`. -/
def cacheKey (pid : String) (tr : TimeRange) : String :=
  "analytics:" ++ pid ++ ":" ++ toString tr.start ++ ":" ++ toString tr.endT

/-- `AnalyticsService.getProfileAnalytics`: cache probe, report assembly on
miss, cache write, with the outer catch rethrowing any error. -/
def getProfileAnalytics (db : DB) (c : CacheState) (pid : String) (tr : TimeRange) :
    Except Unit (AnalyticsData × CacheState) :=
  let key := cacheKey pid tr
  match cacheServiceGet c key with
  | some cached => .ok (cached, c)
  | none =>
      let data := computeAnalyticsData db pid tr
      match cacheServiceSet c key data with
      | .ok c2 => .ok (data, c2)
      | .error e => .error e

/-- The real-time tuple. -/
structure RealtimeCounts where
  activeUsers : Nat
  recentViews : Nat
  recentClicks : Nat
deriving DecidableEq

/-- `AnalyticsService.getRealTimeAnalytics`.  The cache argument is threaded
through unchanged to state that this path performs no cache operation (the
source function contains none). -/
def getRealTimeAnalytics (db : DB) (c : CacheState) (pid : String) (now : Nat) :
    RealtimeCounts × CacheState :=
  let fiveMinutesAgo := now - 5 * 60 * 1000
  let oneMinuteAgo := now - 1 * 60 * 1000
  ({ activeUsers := (db.sessions.filter (fun s =>
        s.profileId == pid && s.endTime == none && decide (fiveMinutesAgo ≤ s.startTime))).length
     recentViews := (db.profileViews.filter (fun v =>
        v.profileId == pid && decide (oneMinuteAgo ≤ v.timestamp))).length
     recentClicks := (db.linkClicks.filter (fun c2 =>
        c2.profileId == pid && decide (oneMinuteAgo ≤ c2.timestamp))).length }, c)

/-- Specification-side count: sessions of the profile with `endTime` null
and `startTime` within the last five minutes. -/
def specActiveUsers (db : DB) (pid : String) (now : Nat) : Nat :=
  db.sessions.countP (fun s =>
    decide (s.profileId = pid ∧ s.endTime = none ∧ now - 5 * 60 * 1000 ≤ s.startTime))

/-- Specification-side count: views of the profile within the last 60
seconds. -/
def specRecentViews (db : DB) (pid : String) (now : Nat) : Nat :=
  db.profileViews.countP (fun v => decide (v.profileId = pid ∧ now - 60000 ≤ v.timestamp))

/-- Specification-side count: clicks of the profile within the last 60
seconds. -/
def specRecentClicks (db : DB) (pid : String) (now : Nat) : Nat :=
  db.linkClicks.countP (fun c => decide (c.profileId = pid ∧ now - 60000 ≤ c.timestamp))

/-! ## Chain adapter (`SuiService`) and the tracking route -/

/-- Outcome of the underlying `getObject` RPC: an object that is (or is not)
a valid profile, or a thrown error. -/
inductive ChainOutcome where
  | ok (found : Bool)
  | err
deriving DecidableEq

/-- `SuiService.getProfile`: the catch block logs and returns `null`, and a
missing object is also `null`. -/
def suiGetProfile : ChainOutcome → Option Unit
  | .ok true => some ()
  | .ok false => none
  | .err => none

/-- `SuiService.profileExists`: `getProfile(...) !== null` (its own catch
also returns `false`). -/
def profileExists (o : ChainOutcome) : Bool :=
  (suiGetProfile o).isSome

/-- Response of `POST /api/track/view`. -/
inductive TrackRouteResult where
  | success (viewId : Nat) (sessionId : Option String)
  | notFoundResp
  | serverError
deriving DecidableEq

/-- The `POST /api/track/view` handler: probe `profileExists`, reject with
404 when it is false, otherwise track the view and answer 200. -/
def postTrackView (chain : ChainOutcome) (db : DB) (d : TrackingData) (geo : GeoData)
    (dev : DeviceData) (freshId : String) (now : Nat) (rowId : Nat) :
    TrackRouteResult × DB :=
  if profileExists chain = false then (.notFoundResp, db)
  else (.success rowId d.sessionId, trackProfileView db d geo dev freshId now rowId)

/-! ## Helper lemmas: idempotence of upsert runs -/

/-- The per-key trace of an upsert: update when a row is present, insert the
create row otherwise. -/
def stepOp {K R P : Type} (upd : R → P → R) (v : Option R) (op : K × R × P) : Option R :=
  some (match v with
        | some r => upd r op.2.2
        | none => op.2.1)

/-- Fold the update payloads of a list of upserts over a row. -/
def foldUpd {K R P : Type} (upd : R → P → R) (r : R) (l : List (K × R × P)) : R :=
  l.foldl (fun r op => upd r op.2.2) r

theorem applyOps_apply {K R P : Type} [DecidableEq K] (upd : R → P → R)
    (ops : List (K × R × P)) (m : K → Option R) (k : K) :
    applyOps upd ops m k
      = (ops.filter (fun op => decide (op.1 = k))).foldl (stepOp upd) (m k) := by
  induction ops generalizing m with
  | nil => rfl
  | cons op rest ih =>
    show applyOps upd rest (applyOp upd m op) k = _
    rw [ih]
    by_cases h : op.1 = k
    · subst h
      have h1 : applyOp upd m op op.1 = stepOp upd (m op.1) op := by
        simp [applyOp, stepOp]
      rw [h1]
      simp [List.filter_cons]
    · have h1 : applyOp upd m op k = m k := by
        simp only [applyOp]
        rw [if_neg (Ne.symm h)]
      rw [h1]
      simp [List.filter_cons, h]

theorem foldl_stepOp_some {K R P : Type} (upd : R → P → R) (l : List (K × R × P)) (r : R) :
    l.foldl (stepOp upd) (some r) = some (foldUpd upd r l) := by
  induction l generalizing r with
  | nil => rfl
  | cons op l ih => simpa [stepOp, foldUpd] using ih (upd r op.2.2)

theorem upd_foldUpd {K R P : Type} (upd : R → P → R)
    (hov : ∀ r p q, upd (upd r p) q = upd r q)
    (l : List (K × R × P)) (r : R) (p : P) :
    upd (foldUpd upd r l) p = upd r p := by
  induction l generalizing r with
  | nil => rfl
  | cons op l ih =>
    show upd (foldUpd upd (upd r op.2.2) l) p = upd r p
    rw [ih (upd r op.2.2), hov]

theorem applyOps_idem {K R P : Type} [DecidableEq K] (upd : R → P → R)
    (ops : List (K × R × P)) (m : K → Option R)
    (hov : ∀ r p q, upd (upd r p) q = upd r q)
    (hfix : ∀ op ∈ ops, upd op.2.1 op.2.2 = op.2.1) :
    applyOps upd ops (applyOps upd ops m) = applyOps upd ops m := by
  funext k
  rw [applyOps_apply, applyOps_apply]
  cases hl : ops.filter (fun op => decide (op.1 = k)) with
  | nil => rfl
  | cons a l2 =>
    have ha : a ∈ ops := List.mem_of_mem_filter (hl ▸ List.mem_cons_self a l2)
    simp only [List.foldl_cons]
    cases hm : m k with
    | none =>
      have hfa : upd a.2.1 a.2.2 = a.2.1 := hfix a ha
      have h1 : stepOp upd none a = some a.2.1 := rfl
      rw [h1, foldl_stepOp_some]
      have h2 : stepOp upd (some (foldUpd upd a.2.1 l2)) a
          = some (upd (foldUpd upd a.2.1 l2) a.2.2) := rfl
      rw [h2, upd_foldUpd upd hov, hfa, foldl_stepOp_some]
    | some r =>
      have h1 : stepOp upd (some r) a = some (upd r a.2.2) := rfl
      rw [h1, foldl_stepOp_some]
      have h2 : stepOp upd (some (foldUpd upd (upd r a.2.2) l2)) a
          = some (upd (foldUpd upd (upd r a.2.2) l2) a.2.2) := rfl
      rw [h2, upd_foldUpd upd hov, hov, foldl_stepOp_some]

theorem DB.ext2 (a b : DB)
    (h1 : a.profileViews = b.profileViews) (h2 : a.linkClicks = b.linkClicks)
    (h3 : a.sessions = b.sessions) (h4 : a.dailyStats = b.dailyStats)
    (h5 : a.linkStats = b.linkStats) (h6 : a.geoStats = b.geoStats)
    (h7 : a.deviceStats = b.deviceStats) (h8 : a.referrerStats = b.referrerStats) :
    a = b := by
  cases a; cases b
  simp only at h1 h2 h3 h4 h5 h6 h7 h8
  subst h1 h2 h3 h4 h5 h6 h7 h8
  rfl

/-- Running all five roll-up passes twice over unchanged raw tables is the
same as running them once. -/
theorem runAll_idem (y t : Nat) (db : DB) :
    runAllAggregations y t (runAllAggregations y t db) = runAllAggregations y t db := by
  have hd := applyOps_idem (fun (_ : DailyStatsRow) (p : DailyStatsRow) => p)
    (aggregateDailyStats y t db) db.dailyStats (fun _ _ _ => rfl)
    (fun op hop => by
      obtain ⟨pid, -, rfl⟩ := List.mem_map.mp hop
      rfl)
  have hl := applyOps_idem (fun (_ : LinkStatsRow) (p : LinkStatsRow) => p)
    (aggregateLinkStats y t db) db.linkStats (fun _ _ _ => rfl)
    (fun op hop => by
      obtain ⟨g, -, rfl⟩ := List.mem_map.mp hop
      obtain ⟨⟨pid, li, title, url⟩, cnt⟩ := g
      rfl)
  have hg := applyOps_idem updGeo (aggregateGeoStats y t db) db.geoStats
    (fun r p q => rfl)
    (fun op hop => by
      obtain ⟨g, -, rfl⟩ := List.mem_map.mp hop
      obtain ⟨⟨pid, country, city, region⟩, cnt⟩ := g
      rfl)
  have hdev := applyOps_idem updDevice (aggregateDeviceStats y t db) db.deviceStats
    (fun r p q => rfl)
    (fun op hop => by
      obtain ⟨g, -, rfl⟩ := List.mem_map.mp hop
      obtain ⟨⟨pid, dt, br, os⟩, cnt⟩ := g
      rfl)
  have hr := applyOps_idem (fun (_ : ReferrerStatsRow) (p : ReferrerStatsRow) => p)
    (aggregateReferrerStats y t db) db.referrerStats (fun _ _ _ => rfl)
    (fun op hop => by
      obtain ⟨g, -, rfl⟩ := List.mem_map.mp hop
      obtain ⟨⟨pid, ref⟩, cnt⟩ := g
      rfl)
  exact DB.ext2 _ _ rfl rfl rfl hd hl hg hdev hr

/-! ## Helper lemmas: session stitching -/

theorem updateSessionRow_sessionId (r : SessionRow) (now : Nat) (ic : Bool) :
    (updateSessionRow r now ic).sessionId = r.sessionId := rfl

theorem findSession_map_update (l : List SessionRow) (sid : String) (now : Nat) (ic : Bool) :
    findSession (l.map (fun r => if r.sessionId == sid then updateSessionRow r now ic else r)) sid
      = (findSession l sid).map (fun r => updateSessionRow r now ic) := by
  induction l with
  | nil => rfl
  | cons x l ih =>
    cases hx : x.sessionId == sid with
    | true =>
      simp only [findSession, List.map_cons, List.find?_cons] at *
      rw [if_pos hx]
      have hpred : ((updateSessionRow x now ic).sessionId == sid) = true := by
        rw [updateSessionRow_sessionId]; exact hx
      rw [hpred, hx]
      rfl
    | false =>
      simp only [findSession, List.map_cons, List.find?_cons] at *
      rw [if_neg (by simp [hx])]
      rw [hx]
      exact ih

theorem findSession_append_of_none (l : List SessionRow) (x : SessionRow) (sid : String)
    (h : findSession l sid = none) :
    findSession (l ++ [x]) sid = if x.sessionId == sid then some x else none := by
  induction l with
  | nil =>
    simp only [findSession, List.nil_append, List.find?_cons, List.find?_nil]
    cases hx : x.sessionId == sid
    · simp
    · simp
  | cons a l ih =>
    simp only [findSession, List.cons_append, List.find?_cons] at h ⊢
    cases ha : a.sessionId == sid with
    | true => rw [ha] at h; simp at h
    | false => rw [ha] at h; exact ih h

theorem findSession_updateSessionList (l : List SessionRow) (sid : String) (d : TrackingData)
    (geo : GeoData) (dev : DeviceData) (now : Nat) (ic : Bool) :
    findSession (updateSessionList l sid d geo dev now ic) sid
      = some (match findSession l sid with
              | some r => updateSessionRow r now ic
              | none => newSessionRow sid d geo dev now ic) := by
  unfold updateSessionList
  cases h : findSession l sid with
  | some r => rw [findSession_map_update, h]; rfl
  | none =>
    rw [findSession_append_of_none l _ sid h]
    have h2 : ((newSessionRow sid d geo dev now ic).sessionId == sid) = true := by
      show (sid == sid) = true
      exact beq_self_eq_true sid
    rw [if_pos h2]

theorem updateDailyStats_sessions (db : DB) (pid : String) (ic : Bool) (now : Nat) :
    (updateDailyStats db pid ic now).sessions = db.sessions := by
  cases h : db.dailyStats (pid, startOfDay now) with
  | none => simp [updateDailyStats, h]
  | some ex => simp [updateDailyStats, h]

theorem updateLinkStats_sessions (db : DB) (pid : String) (li : Nat) (title url : String)
    (now : Nat) :
    (updateLinkStats db pid li title url now).sessions = db.sessions := by
  cases h : db.linkStats (pid, li, startOfDay now) with
  | none => simp [updateLinkStats, h]
  | some ex => simp [updateLinkStats, h]

theorem applyTrack_sessions (db : DB) (e : TrackCall) (sid : String)
    (hs : e.d.sessionId = some sid) :
    (applyTrack db e).sessions
      = updateSessionList db.sessions sid e.d e.geo e.dev e.now e.isClick := by
  cases hic : e.isClick with
  | false =>
    simp only [applyTrack, hic, Bool.false_eq_true, if_false, trackProfileView,
      updateDailyStats_sessions, dbUpdateSession, hs, Option.getD_some]
  | true =>
    simp only [applyTrack, hic, if_true, trackLinkClick, updateLinkStats_sessions,
      updateDailyStats_sessions, dbUpdateSession, hs, Option.getD_some]

theorem trackAll_from_some (sid : String) (evts : List TrackCall) :
    ∀ (db : DB) (r : SessionRow), (∀ e ∈ evts, e.d.sessionId = some sid) →
    findSession db.sessions sid = some r →
    ∃ r2, findSession ((evts.foldl applyTrack db)).sessions sid = some r2 ∧
      r2.pageViews = r.pageViews + evts.countP (fun e => !e.isClick) ∧
      r2.linkClicks = r.linkClicks + evts.countP (fun e => e.isClick) := by
  induction evts with
  | nil =>
    intro db r _ h
    exact ⟨r, h, by simp, by simp⟩
  | cons e evts ih =>
    intro db r hall h
    have hs := hall e (List.mem_cons_self e evts)
    have h1 : findSession (applyTrack db e).sessions sid
        = some (updateSessionRow r e.now e.isClick) := by
      rw [applyTrack_sessions db e sid hs, findSession_updateSessionList, h]
    obtain ⟨r2, hf, hp, hc⟩ := ih (applyTrack db e) (updateSessionRow r e.now e.isClick)
      (fun x hx => hall x (List.mem_cons_of_mem e hx)) h1
    refine ⟨r2, by simpa [List.foldl_cons] using hf, ?_, ?_⟩
    · rw [hp]
      cases hic : e.isClick <;>
        (simp [updateSessionRow, hic, List.countP_cons]; try omega)
    · rw [hc]
      cases hic : e.isClick <;>
        (simp [updateSessionRow, hic, List.countP_cons]; try omega)

/-! ## The concrete store of the aggregator scenario: 10 views in session
S1 and 3 clicks in session S2, all for profile P1 on the processed day
`[0, 86400000)`.  The session rows are exactly what the ingest path leaves
behind: S1 was created by a view and then saw nine more views
(`pageViews = 10`), S2 was created by a click and then saw two more clicks
(`pageViews = 0, linkClicks = 3`). -/

def scenarioView (i : Nat) : ProfileView :=
  { id := i, profileId := "P1", sessionId := some "S1", timestamp := i * 1000 }

def scenarioClick (i : Nat) : LinkClick :=
  { id := i, profileId := "P1", linkIndex := 0, sessionId := some "S2", timestamp := i * 1000 }

def scenarioDB : DB :=
  { DB.empty with
    profileViews := (List.range 10).map scenarioView
    linkClicks := (List.range 3).map scenarioClick
    sessions :=
      [{ sessionId := "S1", profileId := "P1", startTime := 0, endTime := some 9000,
         duration := some 9, pageViews := 10, linkClicks := 0 },
       { sessionId := "S2", profileId := "P1", startTime := 0, endTime := some 2000,
         duration := some 2, pageViews := 0, linkClicks := 3 }] }

theorem scenario_lookup :
    (runAllAggregations 0 86400000 scenarioDB).dailyStats ("P1", 0)
      = some (dailyRowFor 0 86400000 scenarioDB "P1") := by
  rfl

theorem scenario_views : (dailyRowFor 0 86400000 scenarioDB "P1").views = 10 := by decide

theorem scenario_uniqueViews :
    (dailyRowFor 0 86400000 scenarioDB "P1").uniqueViews = 1 := by decide

theorem scenario_clicks : (dailyRowFor 0 86400000 scenarioDB "P1").clicks = 3 := by decide

theorem scenario_uniqueClicks :
    (dailyRowFor 0 86400000 scenarioDB "P1").uniqueClicks = 1 := by decide

theorem scenario_sessions : (dailyRowFor 0 86400000 scenarioDB "P1").sessions = 2 := by decide

theorem scenario_bounceRate_raw :
    (dailyRowFor 0 86400000 scenarioDB "P1").bounceRate
      = some (if (2 : Nat) > 0 then ((0 : Nat) : ℚ) / ((2 : Nat) : ℚ) * 100 else 0) := by
  rfl

theorem scenario_bounceRate :
    (dailyRowFor 0 86400000 scenarioDB "P1").bounceRate = some 0 := by
  rw [scenario_bounceRate_raw]
  norm_num

/-! ## Helper lemmas: the realtime counters coincide with the spec's set
comprehensions -/

theorem realtime_active_eq (db : DB) (pid : String) (now : Nat) :
    (db.sessions.filter (fun s =>
        s.profileId == pid && s.endTime == none
          && decide (now - 5 * 60 * 1000 ≤ s.startTime))).length
      = specActiveUsers db pid now := by
  rw [specActiveUsers, List.countP_eq_length_filter]
  congr 1
  apply List.filter_congr
  intro s _
  rw [Bool.eq_iff_iff]
  simp [and_assoc]

theorem realtime_views_eq (db : DB) (pid : String) (now : Nat) :
    (db.profileViews.filter (fun v =>
        v.profileId == pid && decide (now - 1 * 60 * 1000 ≤ v.timestamp))).length
      = specRecentViews db pid now := by
  rw [specRecentViews, List.countP_eq_length_filter]
  congr 1
  apply List.filter_congr
  intro v _
  rw [Bool.eq_iff_iff]
  simp

theorem realtime_clicks_eq (db : DB) (pid : String) (now : Nat) :
    (db.linkClicks.filter (fun c =>
        c.profileId == pid && decide (now - 1 * 60 * 1000 ≤ c.timestamp))).length
      = specRecentClicks db pid now := by
  rw [specRecentClicks, List.countP_eq_length_filter]
  congr 1
  apply List.filter_congr
  intro c _
  rw [Bool.eq_iff_iff]
  simp

/-! ## Helper lemmas: group keys come from rows -/

theorem mem_distinctKeep_aux {α : Type} [DecidableEq α] (l : List α) (acc : List α) (a : α)
    (h : a ∈ l.foldl (fun acc a => if a ∈ acc then acc else acc ++ [a]) acc) :
    a ∈ acc ∨ a ∈ l := by
  induction l generalizing acc with
  | nil => exact Or.inl h
  | cons b l ih =>
    rcases ih _ h with hacc | hl
    · simp only at hacc
      by_cases hb : b ∈ acc
      · rw [if_pos hb] at hacc
        exact Or.inl hacc
      · rw [if_neg hb] at hacc
        rcases List.mem_append.mp hacc with h1 | h2
        · exact Or.inl h1
        · simp only [List.mem_singleton] at h2
          subst h2
          exact Or.inr (List.mem_cons_self a l)
    · exact Or.inr (List.mem_cons_of_mem _ hl)

theorem mem_of_mem_distinctKeep {α : Type} [DecidableEq α] (l : List α) (a : α)
    (h : a ∈ distinctKeep l) : a ∈ l := by
  rcases mem_distinctKeep_aux l [] a h with h0 | h1
  · simp at h0
  · exact h1

theorem groupCountBy_mem {α κ : Type} [DecidableEq κ] (key : α → κ) (l : List α)
    (g : κ × Nat) (hg : g ∈ groupCountBy key l) : ∃ a ∈ l, key a = g.1 := by
  obtain ⟨k, hk, rfl⟩ := List.mem_map.mp hg
  obtain ⟨a, ha, hka⟩ := List.mem_map.mp (mem_of_mem_distinctKeep _ _ hk)
  exact ⟨a, ha, hka⟩

/-! ## Helper machinery: the time-series merge loop -/

/-- Key membership in an insertion-ordered count list. -/
def keyMem (m : List (String × Nat)) (k : String) : Bool :=
  m.any (fun p => p.1 == k)

/-- Count stored under a key, `0` when absent. -/
def lookupCnt (m : List (String × Nat)) (k : String) : Nat :=
  match m.find? (fun p => p.1 == k) with
  | some p => p.2
  | none => 0

/-- The view pass step on labelled data. -/
def viewFoldStep (m : List (String × TSEntry)) (p : String × Nat) : List (String × TSEntry) :=
  mapSet m p.1 { views := p.2, clicks := 0 }

/-- The click pass step on labelled data. -/
def clickFoldStep (m : List (String × TSEntry)) (q : String × Nat) : List (String × TSEntry) :=
  let existing := (mapGet m q.1).getD { views := 0, clicks := 0 }
  mapSet m q.1 { views := existing.views, clicks := q.2 }

/-- State of the merge loop after the whole view series and a processed
prefix `A` of the click series: view buckets in order (clicks joined from
`A`), then the click-only buckets of `A` in order. -/
def mergeMap (V A : List (String × Nat)) : List (String × TSEntry) :=
  V.map (fun p => (p.1, ({ views := p.2, clicks := lookupCnt A p.1 } : TSEntry))) ++
  (A.filter (fun q => !keyMem V q.1)).map (fun q => (q.1, ({ views := 0, clicks := q.2 } : TSEntry)))

/-- The labelled, grouped series a raw timestamp column contributes. -/
def labelledSeries (period : String) (ts : List Nat) : List (String × Nat) :=
  (sqlGroupCount (ts.map (dateTrunc period))).map
    (fun p => (formatDate (getDateFormat period) p.1, p.2))

theorem keyMem_eq_false_iff (m : List (String × Nat)) (k : String) :
    keyMem m k = false ↔ k ∉ m.map Prod.fst := by
  simp only [keyMem]
  rw [← Bool.not_eq_true, List.any_eq_true]
  constructor
  · intro h hk
    obtain ⟨p, hp, hpk⟩ := List.mem_map.mp hk
    exact h ⟨p, hp, by simp [hpk]⟩
  · rintro h ⟨p, hp, hpk⟩
    exact h (List.mem_map.mpr ⟨p, hp, by simpa using hpk.symm⟩)

theorem mapSet_append_of_not_mem (m : List (String × TSEntry)) (k : String) (v : TSEntry)
    (h : (m.any (fun p => p.1 == k)) = false) :
    mapSet m k v = m ++ [(k, v)] := by
  simp [mapSet, h]

theorem viewFold_eq (V : List (String × Nat)) :
    ∀ (acc : List (String × TSEntry)),
    ((acc.map Prod.fst ++ V.map Prod.fst).Nodup) →
    V.foldl viewFoldStep acc
      = acc ++ V.map (fun p => (p.1, ({ views := p.2, clicks := 0 } : TSEntry))) := by
  induction V with
  | nil => intro acc _; simp
  | cons p V ih =>
    intro acc hnd
    have hp : p.1 ∉ acc.map Prod.fst := by
      rw [List.map_cons] at hnd
      rcases List.nodup_append.mp hnd with ⟨-, -, hdisj⟩
      intro hmem
      exact hdisj hmem (List.mem_cons_self _ _)
    have hstep : viewFoldStep acc p = acc ++ [(p.1, { views := p.2, clicks := 0 })] := by
      apply mapSet_append_of_not_mem
      rw [Bool.eq_false_iff]
      intro hc
      rw [List.any_eq_true] at hc
      obtain ⟨q, hq, hqk⟩ := hc
      exact hp (List.mem_map.mpr ⟨q, hq, by simpa using hqk⟩)
    rw [List.foldl_cons, hstep, ih]
    · simp
    · rw [List.map_append]
      rw [List.map_cons] at hnd
      have : acc.map Prod.fst ++ p.1 :: V.map Prod.fst
          = (acc.map Prod.fst ++ [p.1]) ++ V.map Prod.fst := by
        simp
      rw [this] at hnd
      simpa using hnd

theorem lookupCnt_eq_zero_of_not_mem (A : List (String × Nat)) (k : String)
    (h : k ∉ A.map Prod.fst) : lookupCnt A k = 0 := by
  unfold lookupCnt
  have hf : A.find? (fun p => p.1 == k) = none := by
    rw [List.find?_eq_none]
    intro p hp hpk
    exact h (List.mem_map.mpr ⟨p, hp, by simpa using hpk⟩)
  rw [hf]

theorem lookupCnt_append_ne (A : List (String × Nat)) (c : String × Nat) (k : String)
    (h : ¬(c.1 = k)) : lookupCnt (A ++ [c]) k = lookupCnt A k := by
  unfold lookupCnt
  rw [List.find?_append]
  have h2 : ([c].find? (fun p => p.1 == k)) = none := by
    simp [List.find?_cons, h]
  rw [h2]
  cases hf : A.find? (fun p => p.1 == k) <;> rfl

theorem lookupCnt_append_self (A : List (String × Nat)) (c : String × Nat)
    (h : c.1 ∉ A.map Prod.fst) : lookupCnt (A ++ [c]) c.1 = c.2 := by
  unfold lookupCnt
  rw [List.find?_append]
  have h1 : A.find? (fun p => p.1 == c.1) = none := by
    rw [List.find?_eq_none]
    intro p hp hpk
    exact h (List.mem_map.mpr ⟨p, hp, by simpa using hpk⟩)
  have h2 : [c].find? (fun p => p.1 == c.1) = some c := by
    simp [List.find?_cons]
  rw [h1, h2]
  rfl

theorem find?_map_keyed {β : Type} (V : List (String × Nat)) (g : String × Nat → String × β)
    (hk : ∀ p, (g p).1 = p.1) (k : String) :
    (V.map g).find? (fun q => q.1 == k) = (V.find? (fun p => p.1 == k)).map g := by
  induction V with
  | nil => rfl
  | cons p V ih =>
    simp only [List.map_cons, List.find?_cons, hk p]
    cases hp : (p.1 == k) with
    | true => rfl
    | false => exact ih

theorem find?_eq_of_mem_nodup (V : List (String × Nat)) (p : String × Nat)
    (hnd : (V.map Prod.fst).Nodup) (hp : p ∈ V) :
    V.find? (fun q => q.1 == p.1) = some p := by
  induction V with
  | nil => cases hp
  | cons a V ih =>
    rw [List.map_cons] at hnd
    rcases List.mem_cons.mp hp with rfl | hmem
    · simp [List.find?_cons]
    · have hane : (a.1 == p.1) = false := by
        rw [beq_eq_false_iff_ne]
        intro he
        have hmem2 : p.1 ∈ V.map Prod.fst := List.mem_map.mpr ⟨p, hmem, rfl⟩
        rw [← he] at hmem2
        exact (List.nodup_cons.mp hnd).1 hmem2
      simp only [List.find?_cons, hane]
      exact ih (List.nodup_cons.mp hnd).2 hmem

theorem eq_of_mem_keys_nodup (V : List (String × Nat)) (p q : String × Nat)
    (hnd : (V.map Prod.fst).Nodup) (hp : p ∈ V) (hq : q ∈ V) (h : p.1 = q.1) : p = q := by
  have h1 := find?_eq_of_mem_nodup V p hnd hp
  have h2 := find?_eq_of_mem_nodup V q hnd hq
  rw [h] at h1
  rw [h1] at h2
  exact (Option.some.injEq _ _).mp h2

theorem clickFoldStep_merge (V A : List (String × Nat)) (c : String × Nat)
    (hV : (V.map Prod.fst).Nodup) (hcA : c.1 ∉ A.map Prod.fst) :
    clickFoldStep (mergeMap V A) c = mergeMap V (A ++ [c]) := by
  have hrightkeys : ∀ r ∈ (A.filter (fun q => !keyMem V q.1)).map
      (fun q => (q.1, ({ views := 0, clicks := q.2 } : TSEntry))), r.1 ∈ A.map Prod.fst := by
    rintro r hr
    obtain ⟨q, hq, rfl⟩ := List.mem_map.mp hr
    exact List.mem_map.mpr ⟨q, (List.mem_filter.mp hq).1, rfl⟩
  cases hk : keyMem V c.1 with
  | false =>
    have hcV : c.1 ∉ V.map Prod.fst := (keyMem_eq_false_iff V c.1).mp hk
    have hfind : (mergeMap V A).find? (fun q => q.1 == c.1) = none := by
      unfold mergeMap
      rw [List.find?_append]
      have h1 : (V.map (fun p => (p.1, ({ views := p.2, clicks := lookupCnt A p.1 } : TSEntry)))).find?
          (fun q => q.1 == c.1) = none := by
        rw [find?_map_keyed V
          (fun p => (p.1, ({ views := p.2, clicks := lookupCnt A p.1 } : TSEntry)))
          (fun _ => rfl)]
        rw [List.find?_eq_none.mpr]
        · rfl
        · intro p hp hpk
          exact hcV (by
            have : p.1 = c.1 := by simpa using hpk
            exact this ▸ List.mem_map.mpr ⟨p, hp, rfl⟩)
      have h2 : ((A.filter (fun q => !keyMem V q.1)).map
          (fun q => (q.1, ({ views := 0, clicks := q.2 } : TSEntry)))).find?
          (fun q => q.1 == c.1) = none := by
        rw [List.find?_eq_none]
        intro r hr hrk
        have : r.1 = c.1 := by simpa using hrk
        exact hcA (this ▸ hrightkeys r hr)
      rw [h1, h2]
      rfl
    have hany : ((mergeMap V A).any (fun p => p.1 == c.1)) = false := by
      rw [Bool.eq_false_iff]
      intro hc2
      rw [List.any_eq_true] at hc2
      obtain ⟨r, hr, hrk⟩ := hc2
      have := List.find?_eq_none.mp hfind r hr
      exact this hrk
    have hstep : clickFoldStep (mergeMap V A) c
        = mergeMap V A ++ [(c.1, { views := 0, clicks := c.2 })] := by
      unfold clickFoldStep mapGet
      rw [hfind]
      exact mapSet_append_of_not_mem _ _ _ hany
    rw [hstep]
    unfold mergeMap
    have hleft : V.map (fun p => (p.1, ({ views := p.2, clicks := lookupCnt (A ++ [c]) p.1 } : TSEntry)))
        = V.map (fun p => (p.1, ({ views := p.2, clicks := lookupCnt A p.1 } : TSEntry))) := by
      apply List.map_congr_left
      intro p hp
      have : ¬(c.1 = p.1) := by
        intro he
        exact hcV (he ▸ List.mem_map.mpr ⟨p, hp, rfl⟩)
      rw [lookupCnt_append_ne A c p.1 this]
    have hfilter : (A ++ [c]).filter (fun q => !keyMem V q.1)
        = A.filter (fun q => !keyMem V q.1) ++ [c] := by
      rw [List.filter_append]
      simp [hk]
    rw [hleft, hfilter, List.map_append]
    simp [List.append_assoc]
  | true =>
    have hk2 := hk
    rw [keyMem, List.any_eq_true] at hk2
    obtain ⟨p, hpV, hpk0⟩ := hk2
    have hpk : p.1 = c.1 := by simpa using hpk0
    have hfind : (mergeMap V A).find? (fun q => q.1 == c.1)
        = some (p.1, ({ views := p.2, clicks := lookupCnt A p.1 } : TSEntry)) := by
      unfold mergeMap
      rw [List.find?_append]
      have h1 : (V.map (fun p => (p.1, ({ views := p.2, clicks := lookupCnt A p.1 } : TSEntry)))).find?
          (fun q => q.1 == c.1)
          = some (p.1, ({ views := p.2, clicks := lookupCnt A p.1 } : TSEntry)) := by
        rw [find?_map_keyed V
          (fun p => (p.1, ({ views := p.2, clicks := lookupCnt A p.1 } : TSEntry)))
          (fun _ => rfl)]
        rw [← hpk, find?_eq_of_mem_nodup V p hV hpV]
        rfl
      rw [h1]
      rfl
    have hany : ((mergeMap V A).any (fun q => q.1 == c.1)) = true := by
      rw [List.any_eq_true]
      refine ⟨(p.1, ({ views := p.2, clicks := lookupCnt A p.1 } : TSEntry)), ?_, ?_⟩
      · unfold mergeMap
        exact List.mem_append_left _ (List.mem_map.mpr ⟨p, hpV, rfl⟩)
      · simpa using hpk
    have hstep : clickFoldStep (mergeMap V A) c
        = (mergeMap V A).map (fun r =>
            if r.1 == c.1 then (c.1, { views := p.2, clicks := c.2 }) else r) := by
      unfold clickFoldStep mapGet mapSet
      rw [hfind, if_pos hany]
      rfl
    rw [hstep]
    unfold mergeMap
    rw [List.map_append]
    have hright : ((A.filter (fun q => !keyMem V q.1)).map
          (fun q => (q.1, ({ views := 0, clicks := q.2 } : TSEntry)))).map
        (fun r => if r.1 == c.1 then (c.1, ({ views := p.2, clicks := c.2 } : TSEntry)) else r)
        = (A.filter (fun q => !keyMem V q.1)).map
          (fun q => (q.1, ({ views := 0, clicks := q.2 } : TSEntry))) := by
      rw [List.map_map]
      apply List.map_congr_left
      intro q hq
      have hqa : q.1 ∈ A.map Prod.fst :=
        List.mem_map.mpr ⟨q, (List.mem_filter.mp hq).1, rfl⟩
      have : ¬(q.1 = c.1) := by
        intro he
        exact hcA (he ▸ hqa)
      simp only [Function.comp]
      rw [if_neg (by simpa using this)]
    have hleft : (V.map (fun p => (p.1, ({ views := p.2, clicks := lookupCnt A p.1 } : TSEntry)))).map
        (fun r => if r.1 == c.1 then (c.1, ({ views := p.2, clicks := c.2 } : TSEntry)) else r)
        = V.map (fun q => (q.1, ({ views := q.2, clicks := lookupCnt (A ++ [c]) q.1 } : TSEntry))) := by
      rw [List.map_map]
      apply List.map_congr_left
      intro q hq
      simp only [Function.comp]
      cases hqc : (q.1 == c.1) with
      | true =>
        have hq1 : q.1 = c.1 := by simpa using hqc
        have hqp : q = p := eq_of_mem_keys_nodup V q p hV hq hpV (by rw [hq1, hpk])
        rw [if_pos (by simp [hq1])]
        subst hqp
        rw [hq1, lookupCnt_append_self A c hcA]
      | false =>
        have hq1 : ¬(c.1 = q.1) := by
          intro he
          simp [he] at hqc
        rw [if_neg (by simp [hqc])]
        rw [lookupCnt_append_ne A c q.1 hq1]
    have hfilter : (A ++ [c]).filter (fun q => !keyMem V q.1)
        = A.filter (fun q => !keyMem V q.1) := by
      rw [List.filter_append]
      simp [hk]
    rw [hright, hleft, hfilter]

theorem clickFold_merge (V : List (String × Nat)) (hV : (V.map Prod.fst).Nodup) :
    ∀ (C A : List (String × Nat)), (((A ++ C).map Prod.fst).Nodup) →
    C.foldl clickFoldStep (mergeMap V A) = mergeMap V (A ++ C) := by
  intro C
  induction C with
  | nil => intro A _; simp
  | cons c C ih =>
    intro A hnd
    have hcA : c.1 ∉ A.map Prod.fst := by
      rw [List.map_append] at hnd
      rcases List.nodup_append.mp hnd with ⟨-, -, hdisj⟩
      intro hmem
      exact hdisj hmem (by simp)
    rw [List.foldl_cons, clickFoldStep_merge V A c hV hcA]
    have hnd2 : (((A ++ [c]) ++ C).map Prod.fst).Nodup := by
      rw [← List.append_cons]
      exact hnd
    rw [ih (A ++ [c]) hnd2, ← List.append_cons]

theorem mergeMap_nil (V : List (String × Nat)) :
    mergeMap V [] = V.map (fun p => (p.1, ({ views := p.2, clicks := 0 } : TSEntry))) := by
  show V.map (fun p => (p.1, ({ views := p.2, clicks := lookupCnt [] p.1 } : TSEntry))) ++ [] = _
  rw [List.append_nil]
  rfl

theorem buildTimeSeries_eq (period : String) (viewTs clickTs : List Nat)
    (hV : ((labelledSeries period viewTs).map Prod.fst).Nodup)
    (hC : ((labelledSeries period clickTs).map Prod.fst).Nodup) :
    buildTimeSeries period viewTs clickTs
      = (labelledSeries period viewTs).map (fun p =>
          ({ date := p.1, views := p.2,
             clicks := lookupCnt (labelledSeries period clickTs) p.1 } : TSPoint))
        ++ ((labelledSeries period clickTs).filter
              (fun q => !keyMem (labelledSeries period viewTs) q.1)).map
            (fun q => ({ date := q.1, views := 0, clicks := q.2 } : TSPoint)) := by
  have hm1 : (sqlGroupCount (viewTs.map (dateTrunc period))).foldl
      (fun m p => viewFoldStep m (formatDate (getDateFormat period) p.1, p.2)) []
      = (labelledSeries period viewTs).foldl viewFoldStep [] := by
    unfold labelledSeries
    rw [List.foldl_map]
  have hm2 : ∀ init, (sqlGroupCount (clickTs.map (dateTrunc period))).foldl
      (fun m q => clickFoldStep m (formatDate (getDateFormat period) q.1, q.2)) init
      = (labelledSeries period clickTs).foldl clickFoldStep init := by
    intro init
    unfold labelledSeries
    rw [List.foldl_map]
  calc buildTimeSeries period viewTs clickTs
      = (((sqlGroupCount (clickTs.map (dateTrunc period))).foldl
            (fun m q => clickFoldStep m (formatDate (getDateFormat period) q.1, q.2))
            ((sqlGroupCount (viewTs.map (dateTrunc period))).foldl
              (fun m p => viewFoldStep m (formatDate (getDateFormat period) p.1, p.2)) [])).map
          (fun p => ({ date := p.1, views := p.2.views, clicks := p.2.clicks } : TSPoint))) := rfl
    _ = (((labelledSeries period clickTs).foldl clickFoldStep
            ((labelledSeries period viewTs).foldl viewFoldStep [])).map
          (fun p => ({ date := p.1, views := p.2.views, clicks := p.2.clicks } : TSPoint))) := by
        rw [hm1, hm2]
    _ = ((mergeMap (labelledSeries period viewTs) (labelledSeries period clickTs)).map
          (fun p => ({ date := p.1, views := p.2.views, clicks := p.2.clicks } : TSPoint))) := by
        rw [viewFold_eq (labelledSeries period viewTs) [] (by simpa using hV),
          ← mergeMap_nil, List.nil_append]
        rw [clickFold_merge (labelledSeries period viewTs) hV (labelledSeries period clickTs) []
          (by simpa using hC)]
        rw [List.nil_append]
    _ = _ := by
        unfold mergeMap
        rw [List.map_append, List.map_map, List.map_map]
        rfl

/-! ## Specification-side definitions and concrete instances used by the
claims -/

/-- The referrer classification as the specification words it: `search` when
the (case-folded) referrer contains any of google/bing/yahoo, otherwise
`social` for facebook/twitter/instagram/linkedin, otherwise `direct` for the
empty string or the literal `direct`, otherwise `other`. -/
def specReferrerType (referrer : String) : String :=
  let r := lowerStr referrer
  if strIncludes r "google" || strIncludes r "bing" || strIncludes r "yahoo" then
    "search"
  else if strIncludes r "facebook" || strIncludes r "twitter" ||
      strIncludes r "instagram" || strIncludes r "linkedin" then
    "social"
  else if r == "" || r == "direct" then
    "direct"
  else
    "other"

/-- Strict lexicographic comparison of strings by code point (the order of
ISO-formatted date strings agrees with time order). -/
def strLtChars : List Char → List Char → Bool
  | [], [] => false
  | [], _ :: _ => true
  | _ :: _, [] => false
  | a :: s, b :: t =>
      if a.toNat < b.toNat then true
      else if b.toNat < a.toNat then false
      else strLtChars s t

/-- Strict string comparison on the underlying characters. -/
def strLtB (a b : String) : Bool :=
  strLtChars a.data b.data

/-- Whether a time-series response is in strictly increasing bucket order
(the claim's "ordered chronologically"). -/
def chronologicalB : List TSPoint → Bool
  | [] => true
  | [_] => true
  | a :: b :: l => strLtB a.date b.date && chronologicalB (b :: l)

/-- One view call and one click call sharing session S (for the session
counter witness). -/
def viewCallW : TrackCall :=
  { isClick := false, d := { profileId := "P1", sessionId := some "S" } }

/-- The click call of the session counter witness. -/
def clickCallW : TrackCall :=
  { isClick := true, d := { profileId := "P1", sessionId := some "S" } }

/-- One batch event (for the batch-semantics counterexample). -/
def batchItemX : BatchItem :=
  { d := { profileId := "P1", sessionId := some "S" }, geo := {}, dev := {},
    freshId := "F", rowId := 0 }

/-- A store with a view on 1970-01-02 and a click on 1970-01-01 for P1: the
click-only bucket precedes the view bucket in time. -/
def dbX7 : DB :=
  { DB.empty with
    profileViews := [{ id := 0, profileId := "P1", sessionId := none, timestamp := 86400000 }]
    linkClicks := [{ id := 0, profileId := "P1", linkIndex := 0, sessionId := none, timestamp := 0 }] }

/-- A two-day range at day granularity. -/
def trX7 : TimeRange :=
  { start := 0, endT := 172800000, period := "day" }

/-- A store with one view per day on two consecutive days and one click per
day on the next two days (for the time-series witness). -/
def dbW7 : DB :=
  { DB.empty with
    profileViews := [{ id := 0, profileId := "P1", sessionId := none, timestamp := 0 },
                     { id := 1, profileId := "P1", sessionId := none, timestamp := 86400000 }]
    linkClicks := [{ id := 0, profileId := "P1", linkIndex := 0, sessionId := none,
                     timestamp := 86400000 },
                   { id := 1, profileId := "P1", linkIndex := 0, sessionId := none,
                     timestamp := 172800000 }] }

/-- A three-day range at day granularity. -/
def trW7 : TimeRange :=
  { start := 0, endT := 259200000, period := "day" }

/-- A store with a single Google-referred view (for the referrer witness). -/
def dbW6 : DB :=
  { DB.empty with
    profileViews := [{ id := 0, profileId := "P1", sessionId := none,
                       referrer := some "https://www.google.com/search?q=x", timestamp := 0 }] }

/-- The referrer-stats upsert that view produces. -/
def opW6 : (String × String × Nat) × ReferrerStatsRow × ReferrerStatsRow :=
  (("P1", "https://www.google.com/search?q=x", 0),
   { referrerType := "search", views := 1, clicks := 0 },
   { referrerType := "search", views := 1, clicks := 0 })

/-- An empty cache whose write path raises (for the cache-error
counterexample). -/
def cacheSetFails : CacheState :=
  { entries := fun _ => none, getFails := false, setFails := true }

/-- An empty cache whose read path raises. -/
def cacheGetFails : CacheState :=
  { entries := fun _ => none, getFails := true, setFails := false }

/-- An empty, healthy cache. -/
def cacheOk : CacheState :=
  { entries := fun _ => none, getFails := false, setFails := false }

/-- A one-day range queried at day granularity. -/
def trW10a : TimeRange :=
  { start := 0, endT := 86400000, period := "day" }

/-- The same bounds queried at month granularity. -/
def trW10b : TimeRange :=
  { start := 0, endT := 86400000, period := "month" }

/-! ## The claims -/

/-- C1: for every sequence of `trackProfileView` / `trackLinkClick` calls
carrying one `sessionId`, executed sequentially with each store operation
succeeding, the session row ends with `pageViews` equal to the number of
view calls and `linkClicks` equal to the number of click calls. -/
theorem claim1_session_counts (sid : String) (evts : List TrackCall) (db : DB)
    (hall : ∀ e ∈ evts, e.d.sessionId = some sid)
    (h0 : findSession db.sessions sid = none) (hne : evts ≠ []) :
    ∃ r, findSession ((evts.foldl applyTrack db)).sessions sid = some r ∧
      r.pageViews = evts.countP (fun e => !e.isClick) ∧
      r.linkClicks = evts.countP (fun e => e.isClick) := by
  cases evts with
  | nil => exact absurd rfl hne
  | cons e rest =>
    have hs := hall e (List.mem_cons_self e rest)
    have h1 : findSession (applyTrack db e).sessions sid
        = some (newSessionRow sid e.d e.geo e.dev e.now e.isClick) := by
      rw [applyTrack_sessions db e sid hs, findSession_updateSessionList, h0]
    obtain ⟨r2, hf, hp, hc⟩ := trackAll_from_some sid rest (applyTrack db e)
      (newSessionRow sid e.d e.geo e.dev e.now e.isClick)
      (fun x hx => hall x (List.mem_cons_of_mem e hx)) h1
    refine ⟨r2, by simpa using hf, ?_, ?_⟩
    · rw [hp]
      cases hic : e.isClick <;>
        (simp [newSessionRow, hic, List.countP_cons]; try omega)
    · rw [hc]
      cases hic : e.isClick <;>
        (simp [newSessionRow, hic, List.countP_cons]; try omega)

/-- Witness for C1: a view followed by a click on session S, starting from
the empty store, ends with `pageViews = 1` and `linkClicks = 1`. -/
theorem claim1_session_counts_witness :
    (∀ e ∈ [viewCallW, clickCallW], e.d.sessionId = some "S") ∧
    ∃ r, findSession (([viewCallW, clickCallW]).foldl applyTrack DB.empty).sessions "S" = some r ∧
      r.pageViews = [viewCallW, clickCallW].countP (fun e => !e.isClick) ∧
      r.linkClicks = [viewCallW, clickCallW].countP (fun e => e.isClick) :=
  ⟨by decide,
   claim1_session_counts "S" [viewCallW, clickCallW] DB.empty (by decide) rfl (by decide)⟩

/-- C2: running the Aggregator (all five roll-up passes) twice for the same
closed day over unchanged raw tables leaves every roll-up row identical to
its value after the first run (the whole store is unchanged by the second
run). -/
theorem claim2_aggregator_idempotent (y t : Nat) (db : DB) :
    runAllAggregations y t (runAllAggregations y t db) = runAllAggregations y t db :=
  runAll_idem y t db

/-- C3 counterexample: on the scenario store (10 views in S1, 3 clicks in
S2) the aggregated `bounceRate` is `0`, not the claimed `50.0` — S1 has
`pageViews = 10` and the click-only session S2 has `pageViews = 0`, so no
session has exactly one page view. -/
theorem claim3_counterexample :
    ((runAllAggregations 0 86400000 scenarioDB).dailyStats ("P1", 0)).map
        (fun r => r.bounceRate) = some (some 0) ∧
    ((runAllAggregations 0 86400000 scenarioDB).dailyStats ("P1", 0)).map
        (fun r => r.bounceRate) ≠ some (some 50) := by
  have h : ((runAllAggregations 0 86400000 scenarioDB).dailyStats ("P1", 0)).map
      (fun r => r.bounceRate) = some (some 0) := by
    rw [scenario_lookup]
    simp only [Option.map_some']
    rw [scenario_bounceRate]
  refine ⟨h, ?_⟩
  rw [h]
  intro hc
  simp only [Option.some.injEq] at hc
  norm_num at hc

/-- C3 amended: the scenario yields
`DailyStats(P1) = {views 10, uniqueViews 1, clicks 3, uniqueClicks 1,
sessions 2, bounceRate 0}` (not bounce rate 50), and a second Aggregator run
leaves the row unchanged. -/
theorem claim3_amended :
    ((runAllAggregations 0 86400000 scenarioDB).dailyStats ("P1", 0)).map
        (fun r => (r.views, r.uniqueViews, r.clicks, r.uniqueClicks, r.sessions, r.bounceRate))
      = some (10, 1, 3, 1, 2, some 0) ∧
    (runAllAggregations 0 86400000 (runAllAggregations 0 86400000 scenarioDB)).dailyStats ("P1", 0)
      = (runAllAggregations 0 86400000 scenarioDB).dailyStats ("P1", 0) := by
  constructor
  · rw [scenario_lookup]
    simp only [Option.map_some']
    simp only [scenario_views, scenario_uniqueViews, scenario_clicks, scenario_uniqueClicks,
      scenario_sessions, scenario_bounceRate]
  · rw [runAll_idem]

/-- C4 counterexample: `batchTrackViews` leaves the session table and the
daily stats untouched, while `trackProfileView` on the same event creates a
session and bumps the daily counter — the batch path does not perform the
per-event upserts and is not equivalent to the per-event path. -/
theorem claim4_counterexample :
    (batchTrackViews DB.empty [batchItemX] 0).sessions = [] ∧
    (trackProfileView DB.empty batchItemX.d batchItemX.geo batchItemX.dev
        batchItemX.freshId 0 batchItemX.rowId).sessions ≠ [] ∧
    (batchTrackViews DB.empty [batchItemX] 0).dailyStats ("P1", 0) = none ∧
    (trackProfileView DB.empty batchItemX.d batchItemX.geo batchItemX.dev
        batchItemX.freshId 0 batchItemX.rowId).dailyStats ("P1", 0) ≠ none := by
  refine ⟨rfl, by decide, rfl, by decide⟩

/-- C4 amended: `batchTrackViews` performs exactly the single bulk insert of
one `ProfileView` row per event; the session table, both incremental stats
tables and every other table are left unchanged. -/
theorem claim4_amended (db : DB) (views : List BatchItem) (now : Nat) :
    (batchTrackViews db views now).profileViews
        = db.profileViews ++ views.map (fun it => processBatchView it now) ∧
    (batchTrackViews db views now).sessions = db.sessions ∧
    (batchTrackViews db views now).dailyStats = db.dailyStats ∧
    (batchTrackViews db views now).linkStats = db.linkStats ∧
    (batchTrackViews db views now).linkClicks = db.linkClicks ∧
    (batchTrackViews db views now).geoStats = db.geoStats ∧
    (batchTrackViews db views now).deviceStats = db.deviceStats ∧
    (batchTrackViews db views now).referrerStats = db.referrerStats :=
  ⟨rfl, rfl, rfl, rfl, rfl, rfl, rfl, rfl⟩

/-- C5: `getRealTimeAnalytics` returns exactly the spec's three counts
(sessions with null `endTime` started in the last 5 minutes, views and
clicks of the last 60 seconds) and neither reads nor writes the cache — the
result is independent of the cache state and the cache is returned
unchanged. -/
theorem claim5_realtime (db : DB) (c : CacheState) (pid : String) (now : Nat) :
    (getRealTimeAnalytics db c pid now).1
      = { activeUsers := specActiveUsers db pid now
          recentViews := specRecentViews db pid now
          recentClicks := specRecentClicks db pid now } ∧
    (getRealTimeAnalytics db c pid now).2 = c ∧
    (∀ c2 : CacheState,
      (getRealTimeAnalytics db c2 pid now).1 = (getRealTimeAnalytics db c pid now).1) := by
  refine ⟨?_, rfl, fun c2 => rfl⟩
  rw [← realtime_active_eq db pid now, ← realtime_views_eq db pid now,
    ← realtime_clicks_eq db pid now]
  rfl

/-- C6: every `ReferrerStats` upsert stores, as its key's referrer, the full
original referrer string of some raw in-range view, and classifies it
exactly as the spec's clauses (search / social / direct / other on the
case-folded string); the query path instead reduces a parseable referrer to
its hostname, as on the spec's Google example. -/
theorem claim6_referrer (y t : Nat) (db : DB)
    (op : (String × String × Nat) × ReferrerStatsRow × ReferrerStatsRow)
    (hop : op ∈ aggregateReferrerStats y t db) :
    (∃ v, v ∈ db.profileViews ∧ inRangeB y t v.timestamp = true ∧
      v.referrer = some op.1.2.1) ∧
    op.2.1.referrerType = specReferrerType op.1.2.1 ∧
    cleanReferrer "https://www.google.com/search?q=x" = "www.google.com" := by
  unfold aggregateReferrerStats at hop
  obtain ⟨g, hg, rfl⟩ := List.mem_map.mp hop
  obtain ⟨⟨pid, ref⟩, cnt⟩ := g
  obtain ⟨v, hv, hkey⟩ := groupCountBy_mem _ _ _ hg
  rw [List.mem_filter] at hv
  obtain ⟨hv1, hv2⟩ := hv
  unfold yesterdayViews at hv1
  rw [List.mem_filter] at hv1
  obtain ⟨hvdb, hvrange⟩ := hv1
  have hp : v.profileId = pid ∧ v.referrer = ref := by
    have h1 := congrArg Prod.fst hkey
    have h2 := congrArg Prod.snd hkey
    exact ⟨h1, h2⟩
  obtain ⟨hvp, hvr⟩ := hp
  refine ⟨⟨v, hvdb, hvrange, ?_⟩, rfl, by decide⟩
  rw [hvr] at hv2 ⊢
  obtain ⟨s, hs⟩ := Option.isSome_iff_exists.mp hv2
  rw [hs]
  rfl

/-- Witness for C6: a single view referred from a Google search URL produces
the upsert `(("P1", full URL, day), {referrerType := "search", ...})`. -/
theorem claim6_referrer_witness :
    opW6 ∈ aggregateReferrerStats 0 1 dbW6 ∧
    ((∃ v, v ∈ dbW6.profileViews ∧ inRangeB 0 1 v.timestamp = true ∧
        v.referrer = some opW6.1.2.1) ∧
     opW6.2.1.referrerType = specReferrerType opW6.1.2.1 ∧
     cleanReferrer "https://www.google.com/search?q=x" = "www.google.com") := by
  have hlist : aggregateReferrerStats 0 1 dbW6 = [opW6] := rfl
  have hmem : opW6 ∈ aggregateReferrerStats 0 1 dbW6 := by
    rw [hlist]
    exact List.mem_singleton_self _
  exact ⟨hmem, claim6_referrer 0 1 dbW6 opW6 hmem⟩

/-- C7 counterexample: with a view on 1970-01-02 and a click on 1970-01-01,
`getTimeSeriesData` returns the view bucket first and the click-only bucket
after it — the array is not in chronological order. -/
theorem claim7_counterexample :
    getTimeSeriesData dbX7 "P1" trX7
      = [{ date := "1970-01-02", views := 1, clicks := 0 },
         { date := "1970-01-01", views := 0, clicks := 1 }] ∧
    chronologicalB (getTimeSeriesData dbX7 "P1" trX7) = false := by
  refine ⟨by decide, by decide⟩

/-- C7 amended: `timeSeriesData` merges the view and click series keyed by
the period-truncated, `getDateFormat`-formatted bucket, but is ordered as:
all view buckets in chronological (query) order first, then the buckets
that have clicks and no views, appended in chronological order — not one
globally chronological sequence.  The four period formats are as listed. -/
theorem claim7_amended (db : DB) (pid : String) (tr : TimeRange)
    (hV : ((labelledSeries tr.period (viewTimestamps db pid tr)).map Prod.fst).Nodup)
    (hC : ((labelledSeries tr.period (clickTimestamps db pid tr)).map Prod.fst).Nodup) :
    getTimeSeriesData db pid tr
      = (labelledSeries tr.period (viewTimestamps db pid tr)).map (fun p =>
          ({ date := p.1, views := p.2,
             clicks := lookupCnt (labelledSeries tr.period (clickTimestamps db pid tr)) p.1 }
           : TSPoint))
        ++ ((labelledSeries tr.period (clickTimestamps db pid tr)).filter
              (fun q => !keyMem (labelledSeries tr.period (viewTimestamps db pid tr)) q.1)).map
            (fun q => ({ date := q.1, views := 0, clicks := q.2 } : TSPoint)) ∧
    getDateFormat "hour" = "YYYY-MM-DD HH:00" ∧
    getDateFormat "day" = "YYYY-MM-DD" ∧
    getDateFormat "week" = "YYYY-[W]WW" ∧
    getDateFormat "month" = "YYYY-MM" :=
  ⟨buildTimeSeries_eq tr.period _ _ hV hC, rfl, rfl, rfl, rfl⟩

/-- Witness for C7: two view days and two click days (one shared day)
produce the merged-then-appended shape. -/
theorem claim7_amended_witness :
    ((labelledSeries trW7.period (viewTimestamps dbW7 "P1" trW7)).map Prod.fst).Nodup ∧
    ((labelledSeries trW7.period (clickTimestamps dbW7 "P1" trW7)).map Prod.fst).Nodup ∧
    (getTimeSeriesData dbW7 "P1" trW7
      = (labelledSeries trW7.period (viewTimestamps dbW7 "P1" trW7)).map (fun p =>
          ({ date := p.1, views := p.2,
             clicks := lookupCnt (labelledSeries trW7.period (clickTimestamps dbW7 "P1" trW7)) p.1 }
           : TSPoint))
        ++ ((labelledSeries trW7.period (clickTimestamps dbW7 "P1" trW7)).filter
              (fun q => !keyMem (labelledSeries trW7.period (viewTimestamps dbW7 "P1" trW7)) q.1)).map
            (fun q => ({ date := q.1, views := 0, clicks := q.2 } : TSPoint)) ∧
     getDateFormat "hour" = "YYYY-MM-DD HH:00" ∧
     getDateFormat "day" = "YYYY-MM-DD" ∧
     getDateFormat "week" = "YYYY-[W]WW" ∧
     getDateFormat "month" = "YYYY-MM") :=
  ⟨by decide, by decide, claim7_amended dbW7 "P1" trW7 (by decide) (by decide)⟩

/-- C8 counterexample: with every store sub-query succeeding and an empty
cache whose write path raises, `getProfileAnalytics` propagates the cache
write error and fails instead of returning the freshly computed report. -/
theorem claim8_counterexample :
    getProfileAnalytics DB.empty cacheSetFails "P1" trW10a = .error () ∧
    (∃ c2, getProfileAnalytics DB.empty cacheOk "P1" trW10a
      = .ok (computeAnalyticsData DB.empty "P1" trW10a, c2)) := by
  constructor
  · rfl
  · exact ⟨cacheInsert cacheOk (cacheKey "P1" trW10a)
      (computeAnalyticsData DB.empty "P1" trW10a), rfl⟩

/-- C8 amended: a cache read error is miss-equivalent — when the subsequent
cache write succeeds the call returns the freshly computed report; a cache
write error, however, propagates and fails the call. -/
theorem claim8_amended (db : DB) (c : CacheState) (pid : String) (tr : TimeRange)
    (hget : c.getFails = true) (hset : c.setFails = false) :
    (∃ c2, getProfileAnalytics db c pid tr = .ok (computeAnalyticsData db pid tr, c2)) ∧
    (∀ c3 : CacheState, c3.setFails = true → cacheServiceGet c3 (cacheKey pid tr) = none →
      getProfileAnalytics db c3 pid tr = .error ()) := by
  constructor
  · refine ⟨cacheInsert c (cacheKey pid tr) (computeAnalyticsData db pid tr), ?_⟩
    unfold getProfileAnalytics cacheServiceGet cacheServiceSet
    rw [hget, hset]
    simp
  · intro c3 h1 h2
    simp [getProfileAnalytics, cacheServiceSet, h2, h1]

/-- Witness for C8 amended: the read-failing cache still yields the computed
report, and a write-failing cache fails the call. -/
theorem claim8_amended_witness :
    (∃ c2, getProfileAnalytics DB.empty cacheGetFails "P1" trW10a
      = .ok (computeAnalyticsData DB.empty "P1" trW10a, c2)) ∧
    (∀ c3 : CacheState, c3.setFails = true →
      cacheServiceGet c3 (cacheKey "P1" trW10a) = none →
      getProfileAnalytics DB.empty c3 "P1" trW10a = .error ()) :=
  claim8_amended DB.empty cacheGetFails "P1" trW10a rfl rfl

/-- C9 counterexample: when the chain probe's underlying call errors,
`profileExists` returns `false` and `POST /api/track/view` rejects the
request with 404 — the failure is treated as not-exists, not as unknown. -/
theorem claim9_counterexample :
    profileExists .err = false ∧
    postTrackView .err DB.empty { profileId := "P1" } {} {} "F" 0 0
      = (.notFoundResp, DB.empty) :=
  ⟨rfl, rfl⟩

/-- C9 amended: a chain probe failure is indistinguishable from a missing
profile — `profileExists` is `false` on error, and the tracking route
rejects the event with `NotFound` without writing anything. -/
theorem claim9_amended (db : DB) (d : TrackingData) (geo : GeoData) (dev : DeviceData)
    (freshId : String) (now rowId : Nat) :
    profileExists .err = false ∧
    postTrackView .err db d geo dev freshId now rowId = (.notFoundResp, db) :=
  ⟨rfl, rfl⟩

/-- C10: the analytics cache key depends only on the profile and the epoch
millisecond bounds, so two calls differing only in `period` share the key;
within TTL the second call returns the report computed and cached by the
first — including its period-specific time series. -/
theorem claim10_cache_key (db : DB) (c : CacheState) (pid : String) (tr1 tr2 : TimeRange)
    (hs : tr1.start = tr2.start) (he : tr1.endT = tr2.endT)
    (hg : c.getFails = false) (hw : c.setFails = false)
    (hmiss : c.entries (cacheKey pid tr1) = none) :
    cacheKey pid tr1 = cacheKey pid tr2 ∧
    ∃ c2, getProfileAnalytics db c pid tr1 = .ok (computeAnalyticsData db pid tr1, c2) ∧
      getProfileAnalytics db c2 pid tr2 = .ok (computeAnalyticsData db pid tr1, c2) := by
  have hkey : cacheKey pid tr1 = cacheKey pid tr2 := by
    unfold cacheKey
    rw [hs, he]
  refine ⟨hkey, cacheInsert c (cacheKey pid tr1) (computeAnalyticsData db pid tr1), ?_, ?_⟩
  · simp [getProfileAnalytics, cacheServiceGet, cacheServiceSet, hg, hw, hmiss]
  · simp only [getProfileAnalytics, cacheServiceGet, cacheInsert, ← hkey]
    simp [hg]

/-- Witness for C10: the same bounds at day and at month granularity share
the cache key, and the month-period call returns the day-period report. -/
theorem claim10_cache_key_witness :
    cacheKey "P1" trW10a = cacheKey "P1" trW10b ∧
    ∃ c2, getProfileAnalytics DB.empty cacheOk "P1" trW10a
        = .ok (computeAnalyticsData DB.empty "P1" trW10a, c2) ∧
      getProfileAnalytics DB.empty c2 "P1" trW10b
        = .ok (computeAnalyticsData DB.empty "P1" trW10a, c2) :=
  claim10_cache_key DB.empty cacheOk "P1" trW10a trW10b rfl rfl rfl rfl rfl

end Suitag
